import Mathlib

/-!
The bridge between the demuxing engine and the host, `web_demuxer.cpp`.

A shallow embedding of `src/lib/web-demuxer/web_demuxer.cpp`.

* Machine integers (`int`, `int64_t`, `intptr_t`) are `Int`.
* `double` values live in a type `F` whose operations are given by a `DoubleOps F`
  record, so every statement holds for whatever arithmetic the doubles really have;
  `exactOps` is the instance with exact rational arithmetic.
* The functions of the demuxing engine (FFmpeg) that the bridge calls are fields of an
  `Engine F` record; the packets that `av_read_frame` is going to yield are a list kept
  in the format context.
* The C++ exceptions are the `error` results of `Except`; the effects on the registry
  `context_map`, on the engine and on the JavaScript sink are recorded in a `World`.
-/

namespace WebDemuxer

/-! ## Constants of the engine headers -/

/-- The constant of `libavutil/avutil.h`: internal time units per second. -/
def AV_TIME_BASE : Int := 1000000

/-- The constant of `libavutil/avutil.h`: the timestamp value that means "not set"
(`0x8000000000000000` as an `int64_t`). -/
def AV_NOPTS_VALUE : Int := -9223372036854775808

/-- The constant of `libavutil/avutil.h`: the media type of audio streams. -/
def AVMEDIA_TYPE_AUDIO : Int := 1

/-- The constant of `libavutil/error.h`: the end-of-file error code, `-MKTAG('E','O','F',' ')`. -/
def AVERROR_EOF : Int := -541478725

/-- A rational number of the engine, `AVRational`. -/
structure AVRational where
  num : Int
  den : Int
deriving DecidableEq

/-- The constant of `libavutil/avutil.h`: the internal time base as a rational. -/
def AV_TIME_BASE_Q : AVRational := ⟨1, AV_TIME_BASE⟩

/-! ## Doubles -/

/-- The operations on `double` that the bridge uses. -/
structure DoubleOps (F : Type) where
  /-- The conversion of an integer to a double. -/
  ofInt : Int → F
  /-- The product of two doubles. -/
  mul : F → F → F
  /-- The quotient of two doubles. -/
  div : F → F → F
  /-- The comparison `a > b`. -/
  gt : F → F → Bool
  /-- The conversion `(int64_t)x`, which truncates toward zero. -/
  toInt64 : F → Int

/-- Doubles idealised as exact rationals. -/
def exactOps : DoubleOps ℚ where
  ofInt := fun n => (n : ℚ)
  mul := fun a b => a * b
  div := fun a b => a / b
  gt := fun a b => decide (b < a)
  toInt64 := fun q => Int.tdiv q.num (q.den : Int)

/-- The inline function of `libavutil/rational.h`: `a.num / (double) a.den`. -/
def av_q2d {F : Type} (ops : DoubleOps F) (a : AVRational) : F :=
  ops.div (ops.ofInt a.num) (ops.ofInt a.den)

/-! ## Data of the engine -/

/-- A packet of the engine. `data` is `none` for the null pointer, as in a blank packet. -/
structure AVPacket where
  pts : Int
  dts : Int
  data : Option (List Nat)
  size : Int
  stream_index : Int
  flags : Int
  duration : Int
deriving DecidableEq

/-- The packet that `av_packet_alloc` and `av_packet_unref` leave: no data, no timestamps. -/
def blank_packet : AVPacket :=
  { pts := AV_NOPTS_VALUE, dts := AV_NOPTS_VALUE, data := none, size := 0,
    stream_index := 0, flags := 0, duration := 0 }

/-- A key and a value of the stream metadata. -/
structure Tag where
  key : String
  value : String
deriving DecidableEq

/-- The codec parameters of a stream, the fields the bridge reads. -/
structure AVCodecParameters where
  codec_type : Int
  codec_id : Int
  nb_channels : Int
  sample_rate : Int
  format : Int
  profile : Int
  level : Int
  bit_rate : Int
  extradata : List Nat
  extradata_size : Int
deriving DecidableEq

/-- A stream of the engine, the fields the bridge reads. `metadata` lists the entries
that `av_dict_get` enumerates, in its order. -/
structure AVStream where
  index : Int
  id : Int
  codecpar : AVCodecParameters
  time_base : AVRational
  start_time : Int
  duration : Int
  nb_frames : Int
  avg_frame_rate : AVRational
  metadata : List (Option String × Option String)
deriving DecidableEq

/-- One answer of `av_read_frame`: a packet (return value 0), or a failure with the
negative return value `-(e + 1)`. -/
inductive ReadResult where
  | frame (pkt : AVPacket)
  | failure (e : Nat)
deriving DecidableEq

/-- The format context of the engine: the container description the bridge reads, and
`pending`, what the next calls of `av_read_frame` are going to answer from the current
position (after the last entry the engine answers `AVERROR_EOF`). -/
structure AVFormatContext where
  iformat_name : String
  start_time : Int
  duration : Int
  bit_rate : Int
  nb_chapters : Int
  flags : Int
  streams : List AVStream
  pending : List ReadResult
deriving DecidableEq

/-- The codec descriptor of the engine, the field the bridge reads. -/
structure AVCodecDescriptor where
  name : Option String
deriving DecidableEq

/-- The values of the `AVCodecID` enumerators that `get_audio_mime_type` names
(`libavcodec/codec_id.h`). -/
structure CodecIds where
  AV_CODEC_ID_MP3 : Int
  AV_CODEC_ID_AAC : Int
  AV_CODEC_ID_AC3 : Int
  AV_CODEC_ID_EAC3 : Int
  AV_CODEC_ID_FLAC : Int
  AV_CODEC_ID_VORBIS : Int
  AV_CODEC_ID_OPUS : Int
  AV_CODEC_ID_PCM_S16LE : Int
  AV_CODEC_ID_PCM_S16BE : Int
  AV_CODEC_ID_PCM_U16LE : Int
  AV_CODEC_ID_PCM_U16BE : Int
  AV_CODEC_ID_PCM_ALAW : Int
  AV_CODEC_ID_PCM_MULAW : Int

/-- The enumerator values as `libavcodec/codec_id.h` numbers them. -/
def ffmpegCodecIds : CodecIds where
  AV_CODEC_ID_MP3 := 0x15001
  AV_CODEC_ID_AAC := 0x15002
  AV_CODEC_ID_AC3 := 0x15003
  AV_CODEC_ID_EAC3 := 0x15028
  AV_CODEC_ID_FLAC := 0x1500C
  AV_CODEC_ID_VORBIS := 0x15005
  AV_CODEC_ID_OPUS := 0x1503C
  AV_CODEC_ID_PCM_S16LE := 0x10000
  AV_CODEC_ID_PCM_S16BE := 0x10001
  AV_CODEC_ID_PCM_U16LE := 0x10002
  AV_CODEC_ID_PCM_U16BE := 0x10003
  AV_CODEC_ID_PCM_ALAW := 0x10007
  AV_CODEC_ID_PCM_MULAW := 0x10006

/-- The functions of the engine and of `audio_codec_string.h` that the bridge calls;
their bodies are not part of `web_demuxer.cpp`. -/
structure Engine (F : Type) where
  /-- The arithmetic of `double`. -/
  dbl : DoubleOps F
  /-- The enumerator values of `AVCodecID`. -/
  ids : CodecIds
  /-- The function `av_get_media_type_string`, `none` for the null pointer. -/
  av_get_media_type_string : Int → Option String
  /-- The function `avcodec_descriptor_get`, `none` for the null pointer. -/
  avcodec_descriptor_get : Int → Option AVCodecDescriptor
  /-- The function `av_get_sample_fmt_name`, `none` for the null pointer. -/
  av_get_sample_fmt_name : Int → Option String
  /-- The function `avcodec_profile_name`, `none` for the null pointer. -/
  avcodec_profile_name : Int → Int → Option String
  /-- The function `set_audio_codec_string`: the C string it leaves in the 40-byte buffer. -/
  set_audio_codec_string : AVCodecParameters → String
  /-- The call `av_find_best_stream (fmt_ctx, type, wanted_stream_nb, -1, NULL, 0)`. -/
  av_find_best_stream : AVFormatContext → Int → Int → Int
  /-- The call `av_rescale_q (a, bq, cq)`. -/
  av_rescale_q : Int → AVRational → AVRational → Int
  /-- The call `av_seek_frame (fmt_ctx, stream_index, timestamp, flags)`: the return value and
  the format context at the new position. -/
  av_seek_frame : AVFormatContext → Int → Int → Int → Int × AVFormatContext
  /-- Whether `av_packet_alloc` returns a packet (`false`: it returns the null pointer). -/
  av_packet_alloc : Bool

/-! ## The portable schema -/

/-- The stream descriptor handed to the host. -/
structure WebAVStream (F : Type) where
  index : Int
  id : Int
  codec_type : Int
  codec_type_string : String
  codec_name : String
  codec_string : String
  profile : String
  level : Int
  bit_rate : String
  extradata_size : Int
  extradata : List Nat
  channels : Int
  sample_rate : Int
  sample_fmt : String
  start_time : F
  duration : F
  nb_frames : String
  mime_type : String
  tags : List Tag

/-- The packet handed to the host. -/
structure WebAVPacket (F : Type) where
  stream_index : Int
  keyframe : Int
  timestamp : F
  duration : F
  size : Int
  data : List Nat

/-- The container description handed to the host. -/
structure WebMediaInfo (F : Type) where
  format_name : String
  start_time : F
  duration : F
  bit_rate : String
  nb_streams : Int
  nb_chapters : Int
  flags : Int
  streams : List (WebAVStream F)

/-- The value-initialised element of `std::vector<WebAVStream>(num_streams)`. -/
def WebAVStream.init {F : Type} (ops : DoubleOps F) : WebAVStream F :=
  { index := 0, id := 0, codec_type := 0, codec_type_string := "", codec_name := "",
    codec_string := "", profile := "", level := 0, bit_rate := "", extradata_size := 0,
    extradata := [], channels := 0, sample_rate := 0, sample_fmt := "",
    start_time := ops.ofInt 0, duration := ops.ofInt 0, nb_frames := "", mime_type := "",
    tags := [] }

/-! ## The normalizers -/

/-- The source function `safe_str`: the string, or the empty string for the null pointer. -/
def safe_str (str : Option String) : String :=
  match str with
  | some s => s
  | none => ""

/-- The source function `get_audio_mime_type`; the `switch` is a chain of comparisons
in the order of its `case` labels. -/
def get_audio_mime_type (ids : CodecIds) (codec_id : Int) : String :=
  if codec_id = ids.AV_CODEC_ID_MP3 then "audio/mpeg"
  else if codec_id = ids.AV_CODEC_ID_AAC then "audio/aac"
  else if codec_id = ids.AV_CODEC_ID_AC3 then "audio/ac3"
  else if codec_id = ids.AV_CODEC_ID_EAC3 then "audio/eac3"
  else if codec_id = ids.AV_CODEC_ID_FLAC then "audio/flac"
  else if codec_id = ids.AV_CODEC_ID_VORBIS then "audio/vorbis"
  else if codec_id = ids.AV_CODEC_ID_OPUS then "audio/opus"
  else if codec_id = ids.AV_CODEC_ID_PCM_S16LE ∨ codec_id = ids.AV_CODEC_ID_PCM_S16BE
      ∨ codec_id = ids.AV_CODEC_ID_PCM_U16LE ∨ codec_id = ids.AV_CODEC_ID_PCM_U16BE
      ∨ codec_id = ids.AV_CODEC_ID_PCM_ALAW ∨ codec_id = ids.AV_CODEC_ID_PCM_MULAW then
    "audio/wav"
  else "application/octet-stream"

/-- The source function `gen_web_packet`. The keyframe flag `flags & AV_PKT_FLAG_KEY`
is bit 0 of `flags`; the payload is `std::vector<uint8_t>(data, data + size)`. -/
def gen_web_packet {F : Type} (ops : DoubleOps F) (packet : AVPacket) (stream : AVStream) :
    WebAVPacket F :=
  let packet_timestamp : F :=
    if packet.pts ≠ AV_NOPTS_VALUE then
      ops.mul (ops.ofInt packet.pts) (av_q2d ops stream.time_base)
    else if packet.dts ≠ AV_NOPTS_VALUE then
      ops.mul (ops.ofInt packet.dts) (av_q2d ops stream.time_base)
    else ops.ofInt 0
  { stream_index := packet.stream_index
    keyframe := packet.flags % 2
    timestamp := packet_timestamp
    duration := ops.mul (ops.ofInt packet.duration) (av_q2d ops stream.time_base)
    size := packet.size
    data :=
      if packet.size > 0 then (packet.data.getD []).take packet.size.toNat
      else [] }

/-- The source function `gen_web_stream`, which fills `web_stream` from a stream of the
container `fmt_ctx`. -/
def gen_web_stream {F : Type} (eng : Engine F) (web_stream : WebAVStream F)
    (stream : AVStream) (fmt_ctx : AVFormatContext) : WebAVStream F :=
  let ops := eng.dbl
  let par := stream.codecpar
  let desc := eng.avcodec_descriptor_get par.codec_id
  let audio : Bool := decide (par.codec_type = AVMEDIA_TYPE_AUDIO)
  let codec_string : String :=
    if audio then eng.set_audio_codec_string par else "undf"
  let nb_frames : Int :=
    if stream.nb_frames = 0 ∧ stream.avg_frame_rate.den ≠ 0 then
      ops.toInt64
        (ops.div (ops.mul (ops.ofInt fmt_ctx.duration) (ops.ofInt stream.avg_frame_rate.num))
          (ops.mul (ops.ofInt stream.avg_frame_rate.den) (ops.ofInt AV_TIME_BASE)))
    else stream.nb_frames
  { index := stream.index
    id := stream.id
    codec_type := par.codec_type
    codec_type_string := safe_str (eng.av_get_media_type_string par.codec_type)
    codec_name := safe_str (match desc with
      | some d => d.name
      | none => some "")
    channels := if audio then par.nb_channels else web_stream.channels
    sample_rate := if audio then par.sample_rate else web_stream.sample_rate
    sample_fmt :=
      if audio then safe_str (eng.av_get_sample_fmt_name par.format) else web_stream.sample_fmt
    mime_type :=
      if audio then get_audio_mime_type eng.ids par.codec_id else web_stream.mime_type
    codec_string := safe_str (some codec_string)
    profile := safe_str (eng.avcodec_profile_name par.codec_id par.profile)
    level := par.level
    bit_rate := toString par.bit_rate
    extradata_size := par.extradata_size
    extradata :=
      if par.extradata_size > 0 then par.extradata.take par.extradata_size.toNat else []
    start_time := ops.mul (ops.ofInt stream.start_time) (av_q2d ops stream.time_base)
    duration :=
      if stream.duration > 0 then
        ops.mul (ops.ofInt stream.duration) (av_q2d ops stream.time_base)
      else ops.mul (ops.ofInt fmt_ctx.duration) (av_q2d ops AV_TIME_BASE_Q)
    nb_frames := toString nb_frames
    tags := web_stream.tags ++
      stream.metadata.map (fun t => { key := safe_str t.1, value := safe_str t.2 }) }

/-! ## The byte-source adapter -/

/-- The answer of the provider to `read`: the object with the fields `buffer` and
`bytesRead`. -/
structure ReadAnswer where
  buffer : List Nat
  bytesRead : Int
deriving DecidableEq

/-- The JavaScript method `set (source)` of a typed array, for a view of `view_len`
bytes at the start of the memory `mem`: every element of `source` is stored, from
offset 0; a source longer than the view raises a `RangeError`. -/
def typed_array_set (mem : List Nat) (view_len : Nat) (source : List Nat) :
    Except String (List Nat) :=
  if source.length > view_len then .error "RangeError: offset is out of bounds"
  else .ok (source ++ mem.drop source.length)

/-- The source function `read_packet`: `io_handler` is the `read` method of the provider,
`buf` the memory at the working buffer of the engine. The result is the return value
and the memory afterwards, or the JavaScript exception. -/
def read_packet (io_handler : Int → ReadAnswer) (buf : List Nat) (buf_size : Int) :
    Except String (Int × List Nat) :=
  let result := io_handler buf_size
  let buffer := result.buffer
  let bytes_read := result.bytesRead
  if bytes_read > 0 then
    match typed_array_set buf bytes_read.toNat buffer with
    | .error e => .error e
    | .ok mem => .ok (if bytes_read > 0 then bytes_read else AVERROR_EOF, mem)
  else .ok (if bytes_read > 0 then bytes_read else AVERROR_EOF, buf)

/-! ## The session registry and the effects -/

/-- The session state behind a handle, `DemuxerContext`: the format context. The I/O
context, the provider and the scratch buffer are not read by the operations below. -/
structure DemuxerContext where
  fmt_ctx : AVFormatContext
deriving DecidableEq

/-- What an operation does to the engine and to the sink, in the order it happens. -/
inductive Event (F : Type) where
  /-- A call of `av_seek_frame` and its return value. -/
  | seek (stream_index timestamp flags ret : Int)
  /-- A call of `av_read_frame` and its return value. -/
  | read (ret : Int)
  /-- A call `sendAVPacket (web_packet)` of the sink and the integer it answers. -/
  | send (pkt : WebAVPacket F) (answer : Int)
  /-- The call `sendAVPacket (0)` of the sink. -/
  | sentinel
  /-- A call of `avformat_close_input`. -/
  | close_input

/-- The registry `context_map`, and the events so far. -/
structure World (F : Type) where
  context_map : List (Int × DemuxerContext)
  trace : List (Event F)

/-- The lookup `context_map.find (context_handle)`, `none` for `context_map.end ()`. -/
def find (context_map : List (Int × DemuxerContext)) (context_handle : Int) :
    Option DemuxerContext :=
  context_map.lookup context_handle

/-- The removal `context_map.erase (context_handle)`. -/
def erase (context_map : List (Int × DemuxerContext)) (context_handle : Int) :
    List (Int × DemuxerContext) :=
  context_map.filter (fun kv => decide (kv.1 ≠ context_handle))

/-- The state of the session behind `context_handle` after the engine has worked on it:
the context is reached through a pointer, so the registry sees the new state. -/
def store (context_map : List (Int × DemuxerContext)) (context_handle : Int)
    (ctx : DemuxerContext) : List (Int × DemuxerContext) :=
  context_map.map (fun kv => if kv.1 = context_handle then (kv.1, ctx) else kv)

/-- The stream with no content, read where an index is outside `streams`. -/
def zero_stream : AVStream :=
  { index := 0, id := 0,
    codecpar := { codec_type := 0, codec_id := 0, nb_channels := 0, sample_rate := 0,
                  format := 0, profile := 0, level := 0, bit_rate := 0, extradata := [],
                  extradata_size := 0 },
    time_base := ⟨0, 0⟩, start_time := 0, duration := 0, nb_frames := 0,
    avg_frame_rate := ⟨0, 0⟩, metadata := [] }

/-- The element `fmt_ctx->streams[stream_index]`. -/
def stream_at (fmt_ctx : AVFormatContext) (stream_index : Int) : AVStream :=
  fmt_ctx.streams.getD stream_index.toNat zero_stream

/-- The sink `js_caller`: the integer that `sendAVPacket (web_packet)` answers, given
the packets this call has delivered before and the packet delivered now. -/
abbrev Sink (F : Type) := List (WebAVPacket F) → WebAVPacket F → Int

/-! ## The operations -/

/-- The source function `close_source`. -/
def close_source {F : Type} (w : World F) (context_handle : Int) : World F :=
  match find w.context_map context_handle with
  | none => w
  | some _ =>
    { context_map := erase w.context_map context_handle
      trace := w.trace ++ [Event.close_input] }

/-- The conversion of an `unsigned int` to `int`: the 32 bits are kept, so the values
from 2^31 on become negative. -/
def unsigned_to_int (n : Int) : Int :=
  if n % 4294967296 < 2147483648 then n % 4294967296 else n % 4294967296 - 4294967296

/-- The source function `get_media_info`. The count `nb_streams` of the engine is the
length of `streams`; `num_streams` and `nb_chapters` are conversions of `unsigned int`
to `int`; a negative `num_streams` makes the constructor of
`std::vector<WebAVStream>(num_streams)` raise `std::length_error`. -/
def get_media_info {F : Type} (eng : Engine F) (w : World F) (context_handle : Int) :
    Except String (WebMediaInfo F) × World F :=
  match find w.context_map context_handle with
  | none => (.error "Invalid context handle", w)
  | some ctx =>
    let fmt_ctx := ctx.fmt_ctx
    let ops := eng.dbl
    let num_streams := unsigned_to_int fmt_ctx.streams.length
    if num_streams < 0 then (.error "std::length_error", w)
    else
      (.ok
        { format_name := fmt_ctx.iformat_name
          start_time := ops.mul (ops.ofInt fmt_ctx.start_time) (av_q2d ops AV_TIME_BASE_Q)
          duration := ops.mul (ops.ofInt fmt_ctx.duration) (av_q2d ops AV_TIME_BASE_Q)
          bit_rate := toString fmt_ctx.bit_rate
          nb_streams := num_streams
          nb_chapters := unsigned_to_int fmt_ctx.nb_chapters
          flags := fmt_ctx.flags
          streams :=
            (fmt_ctx.streams.take num_streams.toNat).map
              (fun stream => gen_web_stream eng (WebAVStream.init ops) stream fmt_ctx) },
        w)

/-- The read loop of `get_av_packet`, from the answers that `av_read_frame` is going to
give: the events, the packet the loop leaves in `packet`, and the answers left.
A negative return value ends the loop with `packet` blank; a packet of another stream
is released by `av_packet_unref` and the loop goes on. -/
def fetch_loop {F : Type} (stream_index : Int) :
    List ReadResult → List (Event F) × AVPacket × List ReadResult
  | [] => ([Event.read AVERROR_EOF], blank_packet, [])
  | .failure e :: rest => ([Event.read (-((e : Int) + 1))], blank_packet, rest)
  | .frame packet :: rest =>
    if packet.stream_index = stream_index then ([Event.read 0], packet, rest)
    else
      let r := fetch_loop stream_index rest
      (Event.read 0 :: r.1, r.2.1, r.2.2)

/-- The source function `get_av_packet`. -/
def get_av_packet {F : Type} (eng : Engine F) (w : World F) (context_handle : Int)
    (type wanted_stream_nb : Int) (timestamp : F) (seek_flag : Int) :
    Except String (WebAVPacket F) × World F :=
  match find w.context_map context_handle with
  | none => (.error "Invalid context handle", w)
  | some demux_ctx =>
    let fmt_ctx := demux_ctx.fmt_ctx
    let ops := eng.dbl
    let stream_index := eng.av_find_best_stream fmt_ctx type wanted_stream_nb
    if stream_index < 0 then (.error "Cannot find wanted stream in the input file", w)
    else if eng.av_packet_alloc = false then (.error "Cannot allocate packet", w)
    else
      let int64_timestamp := ops.toInt64 (ops.mul timestamp (ops.ofInt AV_TIME_BASE))
      let seek_time_stamp :=
        eng.av_rescale_q int64_timestamp AV_TIME_BASE_Q (stream_at fmt_ctx stream_index).time_base
      let sought := eng.av_seek_frame fmt_ctx stream_index seek_time_stamp seek_flag
      let seek_event : Event F := Event.seek stream_index seek_time_stamp seek_flag sought.1
      if sought.1 < 0 then
        (.error "Cannot seek to the specified timestamp",
          { context_map := store w.context_map context_handle { fmt_ctx := sought.2 }
            trace := w.trace ++ [seek_event] })
      else
        let r := fetch_loop stream_index sought.2.pending
        let packet := r.2.1
        let after : World F :=
          { context_map :=
              store w.context_map context_handle
                { fmt_ctx := { sought.2 with pending := r.2.2 } }
            trace := w.trace ++ seek_event :: r.1 }
        if packet.data.isNone then (.error "Failed to get av packet at timestamp", after)
        else (.ok (gen_web_packet ops packet (stream_at sought.2 stream_index)), after)

/-- The read loop of `read_av_packet`, from the answers that `av_read_frame` is going to
give: the events of the loop and the answers left. `sent` lists the packets delivered
so far. A negative return value, a packet of the selected stream past `end`, and the
answer 0 of the sink each end the loop. -/
def read_loop {F : Type} (ops : DoubleOps F) (stream_index : Int) (stream : AVStream)
    (end_ : F) (js_caller : Sink F) :
    List ReadResult → List (WebAVPacket F) → List (Event F) × List ReadResult
  | [], _ => ([Event.read AVERROR_EOF], [])
  | .failure e :: rest, _ => ([Event.read (-((e : Int) + 1))], rest)
  | .frame packet :: rest, sent =>
    if packet.stream_index = stream_index then
      let web_packet := gen_web_packet ops packet stream
      if (ops.gt end_ (ops.ofInt 0) && ops.gt web_packet.timestamp end_) = true then
        ([Event.read 0], rest)
      else
        let send_result := js_caller sent web_packet
        if send_result = 0 then ([Event.read 0, Event.send web_packet send_result], rest)
        else
          let r := read_loop ops stream_index stream end_ js_caller rest (sent ++ [web_packet])
          (Event.read 0 :: Event.send web_packet send_result :: r.1, r.2)
    else
      let r := read_loop ops stream_index stream end_ js_caller rest sent
      (Event.read 0 :: r.1, r.2)

/-- The part of `read_av_packet` from the read loop on, for the format context
`fmt_ctx` at the position the reads start from and the events `before` of the seek
step: the loop, the end sentinel `sendAVPacket (0)`, and the return value 1. -/
def stream_from {F : Type} (eng : Engine F) (w : World F) (context_handle : Int)
    (fmt_ctx : AVFormatContext) (before : List (Event F)) (stream_index : Int) (end_ : F)
    (js_caller : Sink F) : Except String Int × World F :=
  let r :=
    read_loop eng.dbl stream_index (stream_at fmt_ctx stream_index) end_ js_caller
      fmt_ctx.pending []
  (.ok 1,
    { context_map :=
        store w.context_map context_handle { fmt_ctx := { fmt_ctx with pending := r.2 } }
      trace := w.trace ++ before ++ r.1 ++ [Event.sentinel] })

/-- The source function `read_av_packet`. -/
def read_av_packet {F : Type} (eng : Engine F) (w : World F) (context_handle : Int)
    (start end_ : F) (type wanted_stream_nb seek_flag : Int) (js_caller : Sink F) :
    Except String Int × World F :=
  match find w.context_map context_handle with
  | none => (.error "Invalid context handle", w)
  | some demux_ctx =>
    let fmt_ctx := demux_ctx.fmt_ctx
    let ops := eng.dbl
    let stream_index := eng.av_find_best_stream fmt_ctx type wanted_stream_nb
    if stream_index < 0 then (.error "Cannot find wanted stream in the input file", w)
    else if eng.av_packet_alloc = false then (.error "Cannot allocate packet", w)
    else if ops.gt start (ops.ofInt 0) = true then
      let start_timestamp := ops.toInt64 (ops.mul start (ops.ofInt AV_TIME_BASE))
      let rescaled_start_time_stamp :=
        eng.av_rescale_q start_timestamp AV_TIME_BASE_Q (stream_at fmt_ctx stream_index).time_base
      let sought := eng.av_seek_frame fmt_ctx stream_index rescaled_start_time_stamp seek_flag
      let seek_event : Event F :=
        Event.seek stream_index rescaled_start_time_stamp seek_flag sought.1
      if sought.1 < 0 then
        (.error "Cannot seek to the specified timestamp",
          { context_map := store w.context_map context_handle { fmt_ctx := sought.2 }
            trace := w.trace ++ [seek_event] })
      else stream_from eng w context_handle sought.2 [seek_event] stream_index end_ js_caller
    else stream_from eng w context_handle fmt_ctx [] stream_index end_ js_caller

/-! ## Definitions used to state the properties -/

/-- Modelled from the spec: the helper `set_audio_codec_string` of
`audio_codec_string.h`, whose body is not among the sources. The spec says that the
codec-parameter string is synthesized for audio streams from codec id, profile and
format-specific parameters, and that it is non-empty for any audio stream. -/
def SetAudioCodecStringSpec (set_audio_codec_string : AVCodecParameters → String) : Prop :=
  ∀ par : AVCodecParameters,
    par.codec_type = AVMEDIA_TYPE_AUDIO → set_audio_codec_string par ≠ ""

/-- The MIME types of the table of `get_audio_mime_type`, and its fallback last. -/
def audio_mime_values : List String :=
  ["audio/mpeg", "audio/aac", "audio/ac3", "audio/eac3", "audio/flac", "audio/vorbis",
   "audio/opus", "audio/wav", "application/octet-stream"]

/-- The codec ids of the table of `get_audio_mime_type`. -/
def audio_mime_keys (ids : CodecIds) : List Int :=
  [ids.AV_CODEC_ID_MP3, ids.AV_CODEC_ID_AAC, ids.AV_CODEC_ID_AC3, ids.AV_CODEC_ID_EAC3,
   ids.AV_CODEC_ID_FLAC, ids.AV_CODEC_ID_VORBIS, ids.AV_CODEC_ID_OPUS,
   ids.AV_CODEC_ID_PCM_S16LE, ids.AV_CODEC_ID_PCM_S16BE, ids.AV_CODEC_ID_PCM_U16LE,
   ids.AV_CODEC_ID_PCM_U16BE, ids.AV_CODEC_ID_PCM_ALAW, ids.AV_CODEC_ID_PCM_MULAW]

/-- An engine whose doubles are exact rationals. -/
def withExactOps (eng : Engine ℚ) : Engine ℚ := { eng with dbl := exactOps }

/-- The statement of the spec about `read_packet` at one provider and one working
buffer: a count of zero or less gives the end-of-stream code and leaves the buffer as
it is; a positive count is returned, and exactly that many bytes of the buffer of the
provider are at the start of the working buffer afterwards, the rest being as before. -/
def ReadPacketCopiesExactly (io_handler : Int → ReadAnswer) (buf : List Nat)
    (buf_size : Int) : Prop :=
  let answer := io_handler buf_size
  (answer.bytesRead ≤ 0 → read_packet io_handler buf buf_size = .ok (AVERROR_EOF, buf)) ∧
  (0 < answer.bytesRead →
    ∃ mem : List Nat,
      read_packet io_handler buf buf_size = .ok (answer.bytesRead, mem) ∧
      (answer.buffer.take answer.bytesRead.toNat).length = answer.bytesRead.toNat ∧
      mem = answer.buffer.take answer.bytesRead.toNat ++ buf.drop answer.bytesRead.toNat)

/-- The packets that the engine yields before its first failure or its exhaustion. -/
def engine_frames : List ReadResult → List AVPacket
  | [] => []
  | .failure _ :: _ => []
  | .frame pkt :: rest => pkt :: engine_frames rest

/-- The first packet of the stream `stream_index` that the engine yields before its
first failure or its exhaustion. -/
def first_match (stream_index : Int) : List ReadResult → Option AVPacket
  | [] => none
  | .failure _ :: _ => none
  | .frame pkt :: rest =>
    if pkt.stream_index = stream_index then some pkt else first_match stream_index rest

/-- The packets that the sink is due from the answers `answers` of the engine: the
packets yielded before the first failure, filtered to the stream `stream_index`, each
normalized by `gen_web_packet`, in the order of the engine. -/
def due_packets {F : Type} (ops : DoubleOps F) (stream_index : Int) (stream : AVStream)
    (answers : List ReadResult) : List (WebAVPacket F) :=
  ((engine_frames answers).filter (fun p => decide (p.stream_index = stream_index))).map
    (fun p => gen_web_packet ops p stream)

/-- The MIME types of the table of `get_audio_mime_type`, without the fallback. -/
def audio_mime_table_values : List String :=
  ["audio/mpeg", "audio/aac", "audio/ac3", "audio/eac3", "audio/flac", "audio/vorbis",
   "audio/opus", "audio/wav"]

/-- The data packets that the sink received, in order. -/
def delivered {F : Type} : List (Event F) → List (WebAVPacket F)
  | [] => []
  | .send pkt _ :: rest => pkt :: delivered rest
  | _ :: rest => delivered rest

/-- The invocations of the sink, in order: the deliveries and the sentinels. -/
def sink_calls {F : Type} : List (Event F) → List (Event F)
  | [] => []
  | .send pkt answer :: rest => .send pkt answer :: sink_calls rest
  | .sentinel :: rest => .sentinel :: sink_calls rest
  | _ :: rest => sink_calls rest

/-- The number of calls of `av_read_frame`. -/
def reads {F : Type} : List (Event F) → Nat
  | [] => 0
  | .read _ :: rest => reads rest + 1
  | _ :: rest => reads rest

/-- Whether the event is the end sentinel. -/
def Event.isSentinel {F : Type} : Event F → Bool
  | .sentinel => true
  | _ => false

/-- The events of a call: what the call has added to the trace of `w`. -/
def new_events {F : Type} {α : Type} (w : World F) (out : α × World F) : List (Event F) :=
  out.2.trace.drop w.trace.length

/-- The timestamp that `get_av_packet` and `read_av_packet` seek to: the seconds
`timestamp` in units of `AV_TIME_BASE`, rescaled to the time base of the stream. -/
def seek_time_stamp {F : Type} (eng : Engine F) (fmt_ctx : AVFormatContext)
    (stream_index : Int) (timestamp : F) : Int :=
  eng.av_rescale_q (eng.dbl.toInt64 (eng.dbl.mul timestamp (eng.dbl.ofInt AV_TIME_BASE)))
    AV_TIME_BASE_Q (stream_at fmt_ctx stream_index).time_base

/-- The prologue of `read_av_packet`: the selected stream, the format context at the
position the read loop starts from, and the events of the seek step, when the call
gets as far as the read loop; `none` when it raises before. -/
def loop_start {F : Type} (eng : Engine F) (w : World F) (context_handle : Int) (start : F)
    (type wanted_stream_nb seek_flag : Int) : Option (Int × AVFormatContext × List (Event F)) :=
  match find w.context_map context_handle with
  | none => none
  | some demux_ctx =>
    let fmt_ctx := demux_ctx.fmt_ctx
    let ops := eng.dbl
    let stream_index := eng.av_find_best_stream fmt_ctx type wanted_stream_nb
    if stream_index < 0 then none
    else if eng.av_packet_alloc = false then none
    else if ops.gt start (ops.ofInt 0) = true then
      let start_timestamp := ops.toInt64 (ops.mul start (ops.ofInt AV_TIME_BASE))
      let rescaled_start_time_stamp :=
        eng.av_rescale_q start_timestamp AV_TIME_BASE_Q (stream_at fmt_ctx stream_index).time_base
      let sought := eng.av_seek_frame fmt_ctx stream_index rescaled_start_time_stamp seek_flag
      if sought.1 < 0 then none
      else some (stream_index, sought.2,
        [Event.seek stream_index rescaled_start_time_stamp seek_flag sought.1])
    else some (stream_index, fmt_ctx, [])

/-- The check that a trace respects the answers of the sink: right after a delivery
answered with 0 comes the sentinel and then nothing, and right after a delivery
answered otherwise comes a call of `av_read_frame`. -/
def answers_respected {F : Type} : List (Event F) → Bool
  | [] => true
  | .send _ answer :: rest =>
    if answer = 0 then
      (match rest with
        | [.sentinel] => true
        | _ => false)
    else
      (match rest with
        | .read _ :: _ => true
        | _ => false) && answers_respected rest
  | _ :: rest => answers_respected rest

/-! ## Example data -/

/-- A stream with the time base 1/1000. -/
def sample_stream (index : Int) : AVStream :=
  { zero_stream with index := index, time_base := ⟨1, 1000⟩ }

/-- A packet of the stream `stream_index` with the timestamp `pts` and the payload `data`. -/
def sample_packet (stream_index pts : Int) (data : Option (List Nat)) : AVPacket :=
  { pts := pts, dts := pts, data := data, size := (data.getD []).length,
    stream_index := stream_index, flags := 1, duration := 20 }

/-- An engine with exact doubles that selects the stream asked for, seeks without
moving, and allocates packets or not. -/
def sample_engine (alloc : Bool) : Engine ℚ where
  dbl := exactOps
  ids := ffmpegCodecIds
  av_get_media_type_string := fun _ => none
  avcodec_descriptor_get := fun _ => none
  av_get_sample_fmt_name := fun _ => none
  avcodec_profile_name := fun _ _ => none
  set_audio_codec_string := fun _ => "mp4a.40.2"
  av_find_best_stream := fun _ _ wanted_stream_nb => wanted_stream_nb
  av_rescale_q := fun a _ _ => a
  av_seek_frame := fun fmt_ctx _ _ _ => (0, fmt_ctx)
  av_packet_alloc := alloc

/-- A format context with two streams and the given answers of `av_read_frame`. -/
def sample_fmt_ctx (pending : List ReadResult) : AVFormatContext :=
  { iformat_name := "mov,mp4,m4a,3gp,3g2,mj2", start_time := 0, duration := 10000000,
    bit_rate := 128000, nb_chapters := 0, flags := 0,
    streams := [sample_stream 0, sample_stream 1], pending := pending }

/-- A world where the handle 7 is registered for `sample_fmt_ctx pending`. -/
def sample_world (pending : List ReadResult) : World ℚ :=
  { context_map := [(7, { fmt_ctx := sample_fmt_ctx pending })], trace := [] }

/-- Four packets: stream 0 at 0.040 s, stream 1 at 0.040 s, stream 0 at 0.080 s and
stream 0 at 0.120 s. -/
def sample_pending : List ReadResult :=
  [.frame (sample_packet 0 40 (some [1, 2])), .frame (sample_packet 1 40 (some [3])),
   .frame (sample_packet 0 80 (some [4, 5])), .frame (sample_packet 0 120 (some [6]))]

/-- A sink that answers 0 to the first packet it receives and 1 afterwards. -/
def stop_at_first : Sink ℚ := fun sent _ => if sent.length = 0 then 0 else 1

/-- A sink that always answers 1. -/
def keep_going : Sink ℚ := fun _ _ => 1

/-! ## Lemmas -/

theorem tdiv_mul_left_cancel (c n d : Int) (hc : c ≠ 0) :
    Int.tdiv (c * n) (c * d) = Int.tdiv n d := by
  have pos : ∀ (c n d : Int), 0 < c → 0 ≤ n → 0 ≤ d →
      Int.tdiv (c * n) (c * d) = Int.tdiv n d := by
    intro c n d hc hn hd
    rw [Int.tdiv_eq_ediv (Int.mul_nonneg hc.le hn) (Int.mul_nonneg hc.le hd),
      Int.tdiv_eq_ediv hn hd, Int.mul_ediv_mul_of_pos _ _ hc]
  have pos2 : ∀ (c n d : Int), 0 < c → Int.tdiv (c * n) (c * d) = Int.tdiv n d := by
    intro c n d hc
    rcases le_total 0 n with hn | hn <;> rcases le_total 0 d with hd | hd
    · exact pos c n d hc hn hd
    · have := pos c n (-d) hc hn (by omega)
      rw [mul_neg, Int.tdiv_neg, Int.tdiv_neg] at this
      omega
    · have := pos c (-n) d hc (by omega) hd
      rw [mul_neg, Int.neg_tdiv, Int.neg_tdiv] at this
      omega
    · have := pos c (-n) (-d) hc (by omega) (by omega)
      rw [mul_neg, mul_neg, Int.neg_tdiv, Int.neg_tdiv, Int.tdiv_neg, Int.tdiv_neg] at this
      omega
  rcases lt_or_gt_of_ne hc with h | h
  · have := pos2 (-c) n d (by omega)
    rw [neg_mul, neg_mul, Int.neg_tdiv, Int.tdiv_neg] at this
    omega
  · exact pos2 c n d h

/-- The truncation of an exact quotient of integers is the truncating integer division. -/
theorem exactOps_toInt64_div (a b : Int) :
    exactOps.toInt64 (exactOps.div (exactOps.ofInt a) (exactOps.ofInt b)) = Int.tdiv a b := by
  show Int.tdiv ((a : ℚ) / (b : ℚ)).num (((a : ℚ) / (b : ℚ)).den : Int) = Int.tdiv a b
  by_cases hb : b = 0
  · subst hb; simp
  · obtain ⟨c, h1, h2⟩ := Rat.exists_eq_mul_div_num_and_eq_mul_div_den a hb
    have hc : c ≠ 0 := by
      rintro rfl
      simp at h2
      exact hb h2
    generalize ((a : ℚ) / (b : ℚ)).num = n at h1 ⊢
    generalize (((a : ℚ) / (b : ℚ)).den : Int) = d at h2 ⊢
    rw [← tdiv_mul_left_cancel c n d hc, ← h1, ← h2]

/-! ## The packet normalizer -/

/-- C9: `gen_web_packet` takes the timestamp from the presentation timestamp when it is
set, otherwise from the decode timestamp when that is set, each multiplied by the time
base `num/den` of the stream; the duration is the packet duration multiplied by the time
base; `stream_index` and `size` are copied; the payload holds the first `size` bytes of
the packet data, and is empty when `size <= 0`. With exact arithmetic the products are
`pts * num / den`, `dts * num / den` and `duration * num / den`. -/
theorem gen_web_packet_normalizes {F : Type} (ops : DoubleOps F) (packet : AVPacket)
    (stream : AVStream) :
    (packet.pts ≠ AV_NOPTS_VALUE →
      (gen_web_packet ops packet stream).timestamp =
        ops.mul (ops.ofInt packet.pts)
          (ops.div (ops.ofInt stream.time_base.num) (ops.ofInt stream.time_base.den))) ∧
    (packet.pts = AV_NOPTS_VALUE → packet.dts ≠ AV_NOPTS_VALUE →
      (gen_web_packet ops packet stream).timestamp =
        ops.mul (ops.ofInt packet.dts)
          (ops.div (ops.ofInt stream.time_base.num) (ops.ofInt stream.time_base.den))) ∧
    (gen_web_packet ops packet stream).duration =
      ops.mul (ops.ofInt packet.duration)
        (ops.div (ops.ofInt stream.time_base.num) (ops.ofInt stream.time_base.den)) ∧
    (gen_web_packet ops packet stream).stream_index = packet.stream_index ∧
    (gen_web_packet ops packet stream).size = packet.size ∧
    (gen_web_packet ops packet stream).data
      = (packet.data.getD []).take packet.size.toNat ∧
    (packet.size ≤ 0 → (gen_web_packet ops packet stream).data = []) ∧
    (packet.pts ≠ AV_NOPTS_VALUE →
      (gen_web_packet exactOps packet stream).timestamp =
        (packet.pts : ℚ) * stream.time_base.num / stream.time_base.den) ∧
    (packet.pts = AV_NOPTS_VALUE → packet.dts ≠ AV_NOPTS_VALUE →
      (gen_web_packet exactOps packet stream).timestamp =
        (packet.dts : ℚ) * stream.time_base.num / stream.time_base.den) ∧
    (gen_web_packet exactOps packet stream).duration =
      (packet.duration : ℚ) * stream.time_base.num / stream.time_base.den := by
  refine ⟨?_, ?_, rfl, rfl, rfl, ?_, ?_, ?_, ?_, ?_⟩
  · intro h
    simp [gen_web_packet, av_q2d, h]
  · intro h1 h2
    simp [gen_web_packet, av_q2d, h1, h2]
  · by_cases hs : packet.size > 0
    · simp [gen_web_packet, hs]
    · have h0 : packet.size.toNat = 0 := by omega
      simp [gen_web_packet, hs, h0]
  · intro hs
    have : ¬ packet.size > 0 := by omega
    simp [gen_web_packet, this]
  · intro h
    simp [gen_web_packet, av_q2d, h, exactOps, mul_div_assoc]
  · intro h1 h2
    simp [gen_web_packet, av_q2d, h1, h2, exactOps, mul_div_assoc]
  · simp [gen_web_packet, av_q2d, exactOps, mul_div_assoc]

/-- The packet normalizer at a packet with the presentation timestamp 1500 in a stream
with the time base 1/1000. -/
theorem gen_web_packet_normalizes_witness :
    (gen_web_packet exactOps (sample_packet 0 1500 (some [1, 2, 3])) (sample_stream 0)).timestamp
      = ((1500 : Int) : ℚ) * ((1 : Int) : ℚ) / ((1000 : Int) : ℚ) :=
  (gen_web_packet_normalizes exactOps (sample_packet 0 1500 (some [1, 2, 3]))
    (sample_stream 0)).2.2.2.2.2.2.2.1 (by decide)

/-! ## The metadata normalizer -/

/-- C8: the frame count that `gen_web_stream` reports is the decimal string of the
`nb_frames` of the stream, unless that is 0 and `avg_frame_rate.den` is not 0: then it is
the decimal string of `duration * avg_frame_rate.num / (avg_frame_rate.den * AV_TIME_BASE)`
converted to an integer, where `duration` is that of the container and `AV_TIME_BASE` is
1000000; with exact arithmetic this is the quotient truncated toward zero. -/
theorem gen_web_stream_nb_frames {F : Type} (eng : Engine F) (exact : Engine ℚ)
    (web_stream : WebAVStream F) (web_stream_exact : WebAVStream ℚ) (stream : AVStream)
    (fmt_ctx : AVFormatContext) :
    AV_TIME_BASE = 1000000 ∧
    (¬ (stream.nb_frames = 0 ∧ stream.avg_frame_rate.den ≠ 0) →
      (gen_web_stream eng web_stream stream fmt_ctx).nb_frames = toString stream.nb_frames) ∧
    (stream.nb_frames = 0 ∧ stream.avg_frame_rate.den ≠ 0 →
      (gen_web_stream eng web_stream stream fmt_ctx).nb_frames =
        toString (eng.dbl.toInt64
          (eng.dbl.div
            (eng.dbl.mul (eng.dbl.ofInt fmt_ctx.duration)
              (eng.dbl.ofInt stream.avg_frame_rate.num))
            (eng.dbl.mul (eng.dbl.ofInt stream.avg_frame_rate.den)
              (eng.dbl.ofInt 1000000))))) ∧
    (stream.nb_frames = 0 ∧ stream.avg_frame_rate.den ≠ 0 →
      (gen_web_stream (withExactOps exact) web_stream_exact stream fmt_ctx).nb_frames =
        toString (Int.tdiv (fmt_ctx.duration * stream.avg_frame_rate.num)
          (stream.avg_frame_rate.den * 1000000))) := by
  refine ⟨rfl, ?_, ?_, ?_⟩
  · intro h
    simp only [gen_web_stream, if_neg h]
  · intro h
    simp only [gen_web_stream, if_pos h, AV_TIME_BASE]
  · intro h
    have key := exactOps_toInt64_div (fmt_ctx.duration * stream.avg_frame_rate.num)
      (stream.avg_frame_rate.den * 1000000)
    simp only [gen_web_stream, if_pos h, AV_TIME_BASE, withExactOps]
    rw [← key]
    simp [exactOps]

/-- The frame count of a stream of 30000/1001 frames per second that reports no frame
count, in a container of ten seconds: 299. -/
theorem gen_web_stream_nb_frames_witness :
    (gen_web_stream (withExactOps (sample_engine true)) (WebAVStream.init exactOps)
      { sample_stream 0 with avg_frame_rate := ⟨30000, 1001⟩ }
      { iformat_name := "mov", start_time := 0, duration := 10000000, bit_rate := 0,
        nb_chapters := 0, flags := 0, streams := [], pending := [] }).nb_frames = "299" :=
  ((gen_web_stream_nb_frames (sample_engine true) (sample_engine true)
    (WebAVStream.init exactOps) (WebAVStream.init exactOps)
    { sample_stream 0 with avg_frame_rate := ⟨30000, 1001⟩ }
    { iformat_name := "mov", start_time := 0, duration := 10000000, bit_rate := 0,
      nb_chapters := 0, flags := 0, streams := [], pending := [] }).2.2.2
    (by decide)).trans (by decide)

/-- C10: for an audio stream `gen_web_stream` sets `mime_type` to
`get_audio_mime_type (codec_id)` and `codec_string` to the string of
`set_audio_codec_string`, which is non-empty when the helper is as the spec says;
`get_audio_mime_type` yields, for every codec id, one of the eight MIME types of its
table or the fallback `application/octet-stream`: the fallback for every codec id
outside the table, one of the eight MIME types for every codec id of the table, and,
the `case` labels being distinct, for each label the MIME type of its `case`; for a
stream that is not audio `codec_string` is `undf`. -/
theorem gen_web_stream_mime_and_codec_string {F : Type} (eng : Engine F)
    (web_stream : WebAVStream F) (stream : AVStream) (fmt_ctx : AVFormatContext) :
    (stream.codecpar.codec_type = AVMEDIA_TYPE_AUDIO →
      (gen_web_stream eng web_stream stream fmt_ctx).mime_type
          = get_audio_mime_type eng.ids stream.codecpar.codec_id ∧
      (gen_web_stream eng web_stream stream fmt_ctx).mime_type ∈ audio_mime_values ∧
      (gen_web_stream eng web_stream stream fmt_ctx).codec_string
          = eng.set_audio_codec_string stream.codecpar ∧
      (SetAudioCodecStringSpec eng.set_audio_codec_string →
        (gen_web_stream eng web_stream stream fmt_ctx).codec_string ≠ "")) ∧
    (∀ codec_id : Int, get_audio_mime_type eng.ids codec_id ∈ audio_mime_values) ∧
    (∀ codec_id : Int, codec_id ∉ audio_mime_keys eng.ids →
      get_audio_mime_type eng.ids codec_id = "application/octet-stream") ∧
    (∀ codec_id : Int, codec_id ∈ audio_mime_keys eng.ids →
      get_audio_mime_type eng.ids codec_id ∈ audio_mime_table_values) ∧
    ((audio_mime_keys eng.ids).Nodup →
      get_audio_mime_type eng.ids eng.ids.AV_CODEC_ID_MP3 = "audio/mpeg" ∧
      get_audio_mime_type eng.ids eng.ids.AV_CODEC_ID_AAC = "audio/aac" ∧
      get_audio_mime_type eng.ids eng.ids.AV_CODEC_ID_AC3 = "audio/ac3" ∧
      get_audio_mime_type eng.ids eng.ids.AV_CODEC_ID_EAC3 = "audio/eac3" ∧
      get_audio_mime_type eng.ids eng.ids.AV_CODEC_ID_FLAC = "audio/flac" ∧
      get_audio_mime_type eng.ids eng.ids.AV_CODEC_ID_VORBIS = "audio/vorbis" ∧
      get_audio_mime_type eng.ids eng.ids.AV_CODEC_ID_OPUS = "audio/opus" ∧
      get_audio_mime_type eng.ids eng.ids.AV_CODEC_ID_PCM_S16LE = "audio/wav" ∧
      get_audio_mime_type eng.ids eng.ids.AV_CODEC_ID_PCM_S16BE = "audio/wav" ∧
      get_audio_mime_type eng.ids eng.ids.AV_CODEC_ID_PCM_U16LE = "audio/wav" ∧
      get_audio_mime_type eng.ids eng.ids.AV_CODEC_ID_PCM_U16BE = "audio/wav" ∧
      get_audio_mime_type eng.ids eng.ids.AV_CODEC_ID_PCM_ALAW = "audio/wav" ∧
      get_audio_mime_type eng.ids eng.ids.AV_CODEC_ID_PCM_MULAW = "audio/wav") ∧
    (stream.codecpar.codec_type ≠ AVMEDIA_TYPE_AUDIO →
      (gen_web_stream eng web_stream stream fmt_ctx).codec_string = "undf") := by
  have hmem : ∀ codec_id : Int, get_audio_mime_type eng.ids codec_id ∈ audio_mime_values := by
    intro codec_id
    unfold get_audio_mime_type audio_mime_values
    split_ifs <;> simp
  refine ⟨?_, hmem, ?_, ?_, ?_, ?_⟩
  · intro ha
    have hm : (gen_web_stream eng web_stream stream fmt_ctx).mime_type
        = get_audio_mime_type eng.ids stream.codecpar.codec_id := by
      simp [gen_web_stream, ha]
    have hc : (gen_web_stream eng web_stream stream fmt_ctx).codec_string
        = eng.set_audio_codec_string stream.codecpar := by
      simp [gen_web_stream, ha, safe_str]
    refine ⟨hm, hm ▸ hmem _, hc, ?_⟩
    intro hspec
    rw [hc]
    exact hspec _ ha
  · intro codec_id hk
    simp only [audio_mime_keys, List.mem_cons, List.mem_singleton, not_or,
      List.not_mem_nil, or_false] at hk
    obtain ⟨h1, h2, h3, h4, h5, h6, h7, h8, h9, h10, h11, h12, h13⟩ := hk
    simp [get_audio_mime_type, h1, h2, h3, h4, h5, h6, h7, h8, h9, h10, h11, h12, h13]
  · intro codec_id hk
    simp only [audio_mime_keys, List.mem_cons, List.mem_singleton, List.not_mem_nil,
      or_false] at hk
    unfold get_audio_mime_type audio_mime_table_values
    split_ifs with g1 g2 g3 g4 g5 g6 g7 g8
    any_goals simp
    tauto
  · intro hnd
    simp only [audio_mime_keys, List.nodup_cons, List.mem_cons, List.mem_singleton,
      List.not_mem_nil, or_false, not_or, List.nodup_nil, and_true] at hnd
    obtain ⟨⟨a1, a2, a3, a4, a5, a6, a7, a8, a9, a10, a11, a12⟩,
      ⟨b2, b3, b4, b5, b6, b7, b8, b9, b10, b11, b12⟩,
      ⟨c3, c4, c5, c6, c7, c8, c9, c10, c11, c12⟩,
      ⟨d4, d5, d6, d7, d8, d9, d10, d11, d12⟩, ⟨e5, e6, e7, e8, e9, e10, e11, e12⟩,
      ⟨f6, f7, f8, f9, f10, f11, f12⟩, ⟨g7, g8, g9, g10, g11, g12⟩, _⟩ := hnd
    refine ⟨?_, ?_, ?_, ?_, ?_, ?_, ?_, ?_, ?_, ?_, ?_, ?_, ?_⟩
    all_goals
      simp [get_audio_mime_type, Ne.symm a1, Ne.symm a2, Ne.symm a3, Ne.symm a4, Ne.symm a5,
        Ne.symm a6, Ne.symm a7, Ne.symm a8, Ne.symm a9, Ne.symm a10, Ne.symm a11, Ne.symm
        a12, Ne.symm b2, Ne.symm b3, Ne.symm b4, Ne.symm b5, Ne.symm b6, Ne.symm b7, Ne.symm
        b8, Ne.symm b9, Ne.symm b10, Ne.symm b11, Ne.symm b12, Ne.symm c3, Ne.symm c4,
        Ne.symm c5, Ne.symm c6, Ne.symm c7, Ne.symm c8, Ne.symm c9, Ne.symm c10, Ne.symm
        c11, Ne.symm c12, Ne.symm d4, Ne.symm d5, Ne.symm d6, Ne.symm d7, Ne.symm d8,
        Ne.symm d9, Ne.symm d10, Ne.symm d11, Ne.symm d12, Ne.symm e5, Ne.symm e6, Ne.symm
        e7, Ne.symm e8, Ne.symm e9, Ne.symm e10, Ne.symm e11, Ne.symm e12, Ne.symm f6,
        Ne.symm f7, Ne.symm f8, Ne.symm f9, Ne.symm f10, Ne.symm f11, Ne.symm f12, Ne.symm
        g7, Ne.symm g8, Ne.symm g9, Ne.symm g10, Ne.symm g11, Ne.symm g12]
  · intro ha
    simp [gen_web_stream, ha, safe_str]

/-- The descriptor of an AAC audio stream, for the enumerator values of the engine
headers and a helper that writes a fixed codec string: the MIME type is `audio/aac`
and the codec string is not empty. -/
theorem gen_web_stream_mime_and_codec_string_witness :
    (gen_web_stream (sample_engine true) (WebAVStream.init exactOps)
      { zero_stream with
        codecpar := { zero_stream.codecpar with codec_type := 1, codec_id := 0x15002 } }
      (sample_fmt_ctx [])).mime_type = "audio/aac" ∧
    (gen_web_stream (sample_engine true) (WebAVStream.init exactOps)
      { zero_stream with
        codecpar := { zero_stream.codecpar with codec_type := 1, codec_id := 0x15002 } }
      (sample_fmt_ctx [])).codec_string ≠ "" :=
  ⟨((gen_web_stream_mime_and_codec_string (sample_engine true) (WebAVStream.init exactOps)
      { zero_stream with
        codecpar := { zero_stream.codecpar with codec_type := 1, codec_id := 0x15002 } }
      (sample_fmt_ctx [])).1 (by decide)).1.trans
      ((gen_web_stream_mime_and_codec_string (sample_engine true)
        (WebAVStream.init exactOps) zero_stream (sample_fmt_ctx [])).2.2.2.2.1
        (by decide)).2.1,
    ((gen_web_stream_mime_and_codec_string (sample_engine true) (WebAVStream.init exactOps)
      { zero_stream with
        codecpar := { zero_stream.codecpar with codec_type := 1, codec_id := 0x15002 } }
      (sample_fmt_ctx [])).1 (by decide)).2.2.2
      (fun _ _ => (by decide : "mp4a.40.2" ≠ ""))⟩

/-! ## The byte-source adapter -/

/-- C7, as the code has it: a count of zero or less gives `AVERROR_EOF` and leaves the
working buffer as it is. For a positive count: when the buffer of the provider holds
exactly `bytesRead` bytes, `read_packet` returns `bytesRead` and these bytes are at the
start of the working buffer, the rest of it being as before; a buffer of fewer bytes is
copied whole, so fewer than `bytesRead` bytes are copied although `bytesRead` is
returned; a buffer of more bytes raises the `RangeError` of the typed array and nothing
is returned. -/
theorem read_packet_copies_provider_buffer (io_handler : Int → ReadAnswer) (buf : List Nat)
    (buf_size : Int) :
    ((io_handler buf_size).bytesRead ≤ 0 →
      read_packet io_handler buf buf_size = .ok (AVERROR_EOF, buf)) ∧
    (0 < (io_handler buf_size).bytesRead →
      (io_handler buf_size).buffer.length = (io_handler buf_size).bytesRead.toNat →
      read_packet io_handler buf buf_size
        = .ok ((io_handler buf_size).bytesRead,
            (io_handler buf_size).buffer ++ buf.drop (io_handler buf_size).bytesRead.toNat) ∧
      ReadPacketCopiesExactly io_handler buf buf_size) ∧
    (0 < (io_handler buf_size).bytesRead →
      (io_handler buf_size).buffer.length < (io_handler buf_size).bytesRead.toNat →
      read_packet io_handler buf buf_size
        = .ok ((io_handler buf_size).bytesRead,
            (io_handler buf_size).buffer ++ buf.drop (io_handler buf_size).buffer.length)) ∧
    (0 < (io_handler buf_size).bytesRead →
      (io_handler buf_size).bytesRead.toNat < (io_handler buf_size).buffer.length →
      read_packet io_handler buf buf_size = .error "RangeError: offset is out of bounds") := by
  have eq_case : 0 < (io_handler buf_size).bytesRead →
      (io_handler buf_size).buffer.length = (io_handler buf_size).bytesRead.toNat →
      read_packet io_handler buf buf_size
        = .ok ((io_handler buf_size).bytesRead,
            (io_handler buf_size).buffer ++ buf.drop (io_handler buf_size).bytesRead.toNat) := by
    intro hpos hlen
    have hgt : (io_handler buf_size).bytesRead > 0 := hpos
    simp [read_packet, typed_array_set, hgt, hlen]
  refine ⟨?_, ?_, ?_, ?_⟩
  · intro h
    have hn : ¬ (io_handler buf_size).bytesRead > 0 := by omega
    simp [read_packet, hn]
  · intro hpos hlen
    refine ⟨eq_case hpos hlen, ?_, ?_⟩
    · intro h; omega
    · intro _
      refine ⟨_, eq_case hpos hlen, ?_, ?_⟩
      · rw [← hlen]; simp
      · rw [← hlen]; simp
  · intro hpos hlen
    have hgt : (io_handler buf_size).bytesRead > 0 := hpos
    have hle : ¬ (io_handler buf_size).buffer.length > (io_handler buf_size).bytesRead.toNat := by
      omega
    simp [read_packet, typed_array_set, hgt, hle]
  · intro hpos hlen
    have hgt : (io_handler buf_size).bytesRead > 0 := hpos
    simp [read_packet, typed_array_set, hgt, hlen]

/-- The adapter at a provider that answers two bytes and the count 2. -/
theorem read_packet_copies_provider_buffer_witness :
    read_packet (fun _ => ⟨[7, 8], 2⟩) [0, 0, 0, 0] 4 = .ok (2, [7, 8, 0, 0]) :=
  ((read_packet_copies_provider_buffer (fun _ => ⟨[7, 8], 2⟩) [0, 0, 0, 0] 4).2.1
    (by decide) (by decide)).1

/-- C7 fails as stated: a provider that answers a buffer of three bytes with the count 2
makes `read_packet` raise instead of returning 2, and a provider that answers a buffer
of one byte with the count 2 gets 2 returned although one byte only was copied. -/
theorem read_packet_copies_exactly_counterexample :
    ¬ ReadPacketCopiesExactly (fun _ => ⟨[1, 2, 3], 2⟩) [0, 0, 0, 0] 4 ∧
    read_packet (fun _ => ⟨[1, 2, 3], 2⟩) [0, 0, 0, 0] 4
      = .error "RangeError: offset is out of bounds" ∧
    ¬ ReadPacketCopiesExactly (fun _ => ⟨[7], 2⟩) [0, 0, 0, 0] 4 ∧
    read_packet (fun _ => ⟨[7], 2⟩) [0, 0, 0, 0] 4 = .ok (2, [7, 0, 0, 0]) := by
  refine ⟨?_, rfl, ?_, rfl⟩
  · intro h
    obtain ⟨mem, hm, _, _⟩ := h.2 (by decide)
    have he : read_packet (fun _ => ⟨[1, 2, 3], 2⟩) [0, 0, 0, 0] 4
        = .error "RangeError: offset is out of bounds" := rfl
    rw [he] at hm
    cases hm
  · intro h
    obtain ⟨mem, _, hl, _⟩ := h.2 (by decide)
    revert hl
    decide

/-! ## The session registry -/

theorem find_erase (context_map : List (Int × DemuxerContext)) (context_handle : Int) :
    find (erase context_map context_handle) context_handle = none := by
  induction context_map with
  | nil => rfl
  | cons kv rest ih =>
    obtain ⟨k, v⟩ := kv
    unfold find erase at ih ⊢
    by_cases hk : k = context_handle
    · simpa [List.filter_cons, hk] using ih
    · have hne : (context_handle == k) = false := by
        simpa using fun h => hk h.symm
      simpa [List.filter_cons, hk, List.lookup_cons, hne] using ih

theorem find_store (context_map : List (Int × DemuxerContext)) (context_handle : Int)
    (old ctx : DemuxerContext) (h : find context_map context_handle = some old) :
    find (store context_map context_handle ctx) context_handle = some ctx := by
  induction context_map with
  | nil => simp [find] at h
  | cons kv rest ih =>
    obtain ⟨k, v⟩ := kv
    unfold find at ih h ⊢
    unfold store at ih ⊢
    by_cases hk : k = context_handle
    · simp [hk, List.lookup_cons]
    · have hne : (context_handle == k) = false := by
        simpa using fun h => hk h.symm
      simp only [List.lookup_cons, hne] at h
      simpa [hk, List.lookup_cons, hne] using ih h

/-- C4: after `close_source (h)` the handle `h` is not registered, and `get_media_info`,
`get_av_packet` and `read_av_packet` on `h` each raise `Invalid context handle` and
leave the world (the registry, the engine and the sink) as it is; `close_source` on a
handle that is not registered leaves the world as it is; closing twice is closing once. -/
theorem close_source_invalidates_handle {F : Type} (eng : Engine F) (w : World F)
    (context_handle : Int) (start end_ timestamp : F) (type wanted_stream_nb seek_flag : Int)
    (js_caller : Sink F) :
    find (close_source w context_handle).context_map context_handle = none ∧
    get_media_info eng (close_source w context_handle) context_handle
      = (.error "Invalid context handle", close_source w context_handle) ∧
    get_av_packet eng (close_source w context_handle) context_handle type wanted_stream_nb
        timestamp seek_flag
      = (.error "Invalid context handle", close_source w context_handle) ∧
    read_av_packet eng (close_source w context_handle) context_handle start end_ type
        wanted_stream_nb seek_flag js_caller
      = (.error "Invalid context handle", close_source w context_handle) ∧
    (find w.context_map context_handle = none → close_source w context_handle = w) ∧
    close_source (close_source w context_handle) context_handle
      = close_source w context_handle := by
  have hnone : find (close_source w context_handle).context_map context_handle = none := by
    unfold close_source
    cases hf : find w.context_map context_handle with
    | none => simpa using hf
    | some ctx => simpa using find_erase w.context_map context_handle
  refine ⟨hnone, ?_, ?_, ?_, ?_, ?_⟩
  · simp only [get_media_info, hnone]
  · simp only [get_av_packet, hnone]
  · simp only [read_av_packet, hnone]
  · intro hf
    simp only [close_source, hf]
  · generalize close_source w context_handle = w2 at hnone ⊢
    simp only [close_source, hnone]

/-- Closing a registered handle and then asking for its media info. -/
theorem close_source_invalidates_handle_witness :
    (get_media_info (sample_engine true)
      (close_source (sample_world sample_pending) 7) 7).1
      = .error "Invalid context handle" :=
  congrArg Prod.fst
    (close_source_invalidates_handle (sample_engine true) (sample_world sample_pending) 7
      0 0 0 0 0 0 keep_going).2.1

/-! ## The read loop of the packet streamer -/

theorem read_loop_starts_with_read {F : Type} (ops : DoubleOps F) (stream_index : Int)
    (stream : AVStream) (end_ : F) (js_caller : Sink F) (pending : List ReadResult)
    (sent : List (WebAVPacket F)) :
    ∃ ret tl, (read_loop ops stream_index stream end_ js_caller pending sent).1
      = Event.read ret :: tl := by
  cases pending with
  | nil => exact ⟨_, _, rfl⟩
  | cons r rest =>
    cases r with
    | failure e => exact ⟨_, _, rfl⟩
    | frame packet =>
      simp only [read_loop]
      split_ifs <;> exact ⟨_, _, rfl⟩

theorem read_loop_no_sentinel {F : Type} (ops : DoubleOps F) (stream_index : Int)
    (stream : AVStream) (end_ : F) (js_caller : Sink F) (pending : List ReadResult) :
    ∀ (sent : List (WebAVPacket F)),
      ∀ e ∈ (read_loop ops stream_index stream end_ js_caller pending sent).1,
        e.isSentinel = false := by
  induction pending with
  | nil => intro sent e he; simp [read_loop] at he; subst he; rfl
  | cons r rest ih =>
    intro sent e he
    cases r with
    | failure n => simp [read_loop] at he; subst he; rfl
    | frame packet =>
      simp only [read_loop] at he
      split_ifs at he
      · simp at he; subst he; rfl
      · simp at he; rcases he with rfl | rfl <;> rfl
      · simp only [List.mem_cons] at he
        rcases he with rfl | rfl | he
        · rfl
        · rfl
        · exact ih _ e he
      · simp only [List.mem_cons] at he
        rcases he with rfl | he
        · rfl
        · exact ih _ e he

theorem read_loop_within_end {F : Type} (ops : DoubleOps F) (stream_index : Int)
    (stream : AVStream) (end_ : F) (js_caller : Sink F)
    (hend : ops.gt end_ (ops.ofInt 0) = true) (pending : List ReadResult) :
    ∀ (sent : List (WebAVPacket F)) (pkt : WebAVPacket F) (answer : Int),
      Event.send pkt answer ∈ (read_loop ops stream_index stream end_ js_caller pending sent).1 →
        ops.gt pkt.timestamp end_ = false := by
  induction pending with
  | nil => intro sent pkt answer he; simp [read_loop] at he
  | cons r rest ih =>
    intro sent pkt answer he
    cases r with
    | failure n => simp [read_loop] at he
    | frame packet =>
      simp only [read_loop] at he
      split_ifs at he with hsel hpast hstop
      · simp at he
      · simp only [List.mem_cons, Event.send.injEq, List.mem_singleton] at he
        rcases he with he | he | he
        · cases he
        · rw [he.1]; simpa [hend] using hpast
        · cases he
      · simp only [List.mem_cons, Event.send.injEq] at he
        rcases he with he | he | he
        · cases he
        · rw [he.1]; simpa [hend] using hpast
        · exact ih _ pkt answer he
      · simp only [List.mem_cons] at he
        rcases he with he | he
        · cases he
        · exact ih _ pkt answer he

theorem read_loop_answers_respected {F : Type} (ops : DoubleOps F) (stream_index : Int)
    (stream : AVStream) (end_ : F) (js_caller : Sink F) (pending : List ReadResult) :
    ∀ (sent : List (WebAVPacket F)),
      answers_respected
        ((read_loop ops stream_index stream end_ js_caller pending sent).1 ++ [Event.sentinel])
        = true := by
  induction pending with
  | nil => intro sent; rfl
  | cons r rest ih =>
    intro sent
    cases r with
    | failure n => rfl
    | frame packet =>
      simp only [read_loop]
      split_ifs with hsel hpast hstop
      · rfl
      · simp [answers_respected, hstop]
      · obtain ⟨ret, tl, htl⟩ := read_loop_starts_with_read ops stream_index stream end_
          js_caller rest (sent ++ [gen_web_packet ops packet stream])
        have := ih (sent ++ [gen_web_packet ops packet stream])
        simp only [List.cons_append, answers_respected, if_neg hstop]
        rw [htl] at this ⊢
        simpa using this
      · simpa [answers_respected] using ih sent

theorem read_loop_delivered {F : Type} (ops : DoubleOps F) (stream_index : Int)
    (stream : AVStream) (end_ : F) (js_caller : Sink F) (pending : List ReadResult) :
    ∀ (sent : List (WebAVPacket F)),
      delivered (read_loop ops stream_index stream end_ js_caller pending sent).1 <+:
        ((engine_frames pending).filter (fun p => decide (p.stream_index = stream_index))).map
          (fun p => gen_web_packet ops p stream) := by
  induction pending with
  | nil => intro sent; simp [read_loop, delivered]
  | cons r rest ih =>
    intro sent
    cases r with
    | failure n => simp [read_loop, delivered, engine_frames]
    | frame packet =>
      simp only [read_loop, engine_frames]
      split_ifs with hsel hpast hstop
      · simp [delivered]
      · simp [delivered, hsel, List.filter_cons]
      · simpa [delivered, hsel, List.filter_cons, List.cons_prefix_cons] using ih _
      · simpa [delivered, hsel, List.filter_cons] using ih sent

theorem read_loop_stops_past_end {F : Type} (ops : DoubleOps F) (stream_index : Int)
    (stream : AVStream) (end_ : F) (js_caller : Sink F)
    (hend : ops.gt end_ (ops.ofInt 0) = true) (q : AVPacket) (rest : List ReadResult)
    (hq : q.stream_index = stream_index)
    (hpast : ops.gt (gen_web_packet ops q stream).timestamp end_ = true)
    (pre : List ReadResult) :
    ∀ (sent : List (WebAVPacket F)),
      reads (read_loop ops stream_index stream end_ js_caller
          (pre ++ ReadResult.frame q :: rest) sent).1 ≤ pre.length + 1 ∧
      delivered (read_loop ops stream_index stream end_ js_caller
          (pre ++ ReadResult.frame q :: rest) sent).1 <+:
        ((engine_frames pre).filter (fun p => decide (p.stream_index = stream_index))).map
          (fun p => gen_web_packet ops p stream) := by
  induction pre with
  | nil =>
    intro sent
    simp [read_loop, hq, hend, hpast, reads, delivered]
  | cons r pre ih =>
    intro sent
    cases r with
    | failure n => simp [read_loop, reads, delivered, engine_frames]
    | frame packet =>
      simp only [List.cons_append, read_loop, engine_frames]
      split_ifs with hsel hp hstop
      · simp [reads, delivered]
      · simp [reads, delivered, hsel, List.filter_cons]
      · have := ih (sent ++ [gen_web_packet ops packet stream])
        simpa [reads, delivered, hsel, List.filter_cons, List.cons_prefix_cons] using this
      · simpa [reads, delivered, hsel, List.filter_cons] using ih sent

/-! ## Traces that respect the answers of the sink -/

theorem answers_respected_tail {F : Type} (e : Event F) (tr : List (Event F))
    (h : answers_respected (e :: tr) = true) :
    answers_respected tr = true ∨ ∃ pkt, e = Event.send pkt 0 ∧ tr = [Event.sentinel] := by
  cases e with
  | send pkt answer =>
    by_cases ha : answer = 0
    · subst ha
      right
      refine ⟨pkt, rfl, ?_⟩
      simp only [answers_respected, if_true] at h
      split at h
      · rfl
      · cases h
    · left
      simp only [answers_respected, if_neg ha, Bool.and_eq_true] at h
      exact h.2
  | seek a b c d => left; simpa [answers_respected] using h
  | read r => left; simpa [answers_respected] using h
  | sentinel => left; simpa [answers_respected] using h
  | close_input => left; simpa [answers_respected] using h

theorem answers_respected_stop {F : Type} (pre : List (Event F)) (pkt : WebAVPacket F)
    (post : List (Event F))
    (h : answers_respected (pre ++ Event.send pkt 0 :: post) = true) :
    post = [Event.sentinel] := by
  induction pre with
  | nil =>
    simp only [List.nil_append, answers_respected, if_true] at h
    split at h
    · rfl
    · cases h
  | cons e pre ih =>
    rcases answers_respected_tail e _ h with h2 | ⟨_, _, h2⟩
    · exact ih h2
    · cases pre with
      | nil => simp at h2
      | cons e2 pre2 =>
        simp at h2

theorem answers_respected_continue {F : Type} (pre : List (Event F)) (pkt : WebAVPacket F)
    (answer : Int) (post : List (Event F)) (ha : answer ≠ 0)
    (h : answers_respected (pre ++ Event.send pkt answer :: post) = true) :
    ∃ ret tl, post = Event.read ret :: tl := by
  induction pre with
  | nil =>
    simp only [List.nil_append, answers_respected, if_neg ha, Bool.and_eq_true] at h
    have h1 := h.1
    split at h1
    · exact ⟨_, _, rfl⟩
    · cases h1
  | cons e pre ih =>
    rcases answers_respected_tail e _ h with h2 | ⟨_, _, h2⟩
    · exact ih h2
    · cases pre with
      | nil => simp at h2
      | cons e2 pre2 =>
        simp at h2

theorem answers_respected_first_stop {F : Type} (tr : List (Event F)) :
    answers_respected tr = true →
    ∀ (pkt : WebAVPacket F) (answer : Int) (later : List (Event F)),
      sink_calls tr = Event.send pkt answer :: later → answer = 0 →
        later = [Event.sentinel] := by
  induction tr with
  | nil => intro _ pkt answer later h; simp [sink_calls] at h
  | cons e tr ih =>
    intro hr pkt answer later h ha
    cases e with
    | send p a =>
      simp only [sink_calls, List.cons.injEq, Event.send.injEq] at h
      obtain ⟨⟨_, h1⟩, h2⟩ := h
      subst h1
      subst ha
      simp only [answers_respected, if_true] at hr
      split at hr
      · rw [← h2]; rfl
      · cases hr
    | seek a b c d =>
      simp only [sink_calls] at h
      exact ih (by simpa [answers_respected] using hr) pkt answer later h ha
    | read r =>
      simp only [sink_calls] at h
      exact ih (by simpa [answers_respected] using hr) pkt answer later h ha
    | sentinel => simp [sink_calls] at h
    | close_input =>
      simp only [sink_calls] at h
      exact ih (by simpa [answers_respected] using hr) pkt answer later h ha

/-! ## The packet streamer -/

theorem new_events_append {F : Type} {α : Type} (w : World F) (out : α × World F)
    (ev : List (Event F)) (h : out.2.trace = w.trace ++ ev) : new_events w out = ev := by
  simp [new_events, h]

theorem stream_from_events {F : Type} (eng : Engine F) (w : World F) (context_handle : Int)
    (fmt_ctx : AVFormatContext) (before : List (Event F)) (stream_index : Int) (end_ : F)
    (js_caller : Sink F) :
    new_events w (stream_from eng w context_handle fmt_ctx before stream_index end_ js_caller)
      = before ++
        ((read_loop eng.dbl stream_index (stream_at fmt_ctx stream_index) end_ js_caller
          fmt_ctx.pending []).1 ++ [Event.sentinel]) := by
  apply new_events_append
  simp [stream_from]

theorem read_av_packet_of_loop_start {F : Type} (eng : Engine F) (w : World F)
    (context_handle : Int) (start end_ : F) (type wanted_stream_nb seek_flag : Int)
    (js_caller : Sink F) (stream_index : Int) (fmt_ctx : AVFormatContext)
    (before : List (Event F))
    (h : loop_start eng w context_handle start type wanted_stream_nb seek_flag
      = some (stream_index, fmt_ctx, before)) :
    read_av_packet eng w context_handle start end_ type wanted_stream_nb seek_flag js_caller
      = stream_from eng w context_handle fmt_ctx before stream_index end_ js_caller ∧
    (before = [] ∨ ∃ a b c d, before = [Event.seek a b c d]) := by
  unfold loop_start at h
  unfold read_av_packet
  cases hf : find w.context_map context_handle with
  | none => simp [hf] at h
  | some ctx =>
    simp only [hf] at h ⊢
    split_ifs at h ⊢ with h1 h2 h3 h4
    · simp only [Option.some.injEq, Prod.mk.injEq] at h
      obtain ⟨rfl, rfl, rfl⟩ := h
      exact ⟨rfl, Or.inr ⟨_, _, _, _, rfl⟩⟩
    · simp only [Option.some.injEq, Prod.mk.injEq] at h
      obtain ⟨rfl, rfl, rfl⟩ := h
      exact ⟨rfl, Or.inl rfl⟩

theorem read_av_packet_of_no_loop_start {F : Type} (eng : Engine F) (w : World F)
    (context_handle : Int) (start end_ : F) (type wanted_stream_nb seek_flag : Int)
    (js_caller : Sink F)
    (h : loop_start eng w context_handle start type wanted_stream_nb seek_flag = none) :
    new_events w
        (read_av_packet eng w context_handle start end_ type wanted_stream_nb seek_flag
          js_caller) = [] ∨
    ∃ a b c d,
      new_events w
        (read_av_packet eng w context_handle start end_ type wanted_stream_nb seek_flag
          js_caller) = [Event.seek a b c d] := by
  unfold loop_start at h
  unfold read_av_packet
  cases hf : find w.context_map context_handle with
  | none => left; simp [new_events]
  | some ctx =>
    simp only [hf] at h ⊢
    split_ifs at h ⊢ with h1 h2 h3 h4
    · left; simp [new_events]
    · left; simp [new_events]
    · right; exact ⟨_, _, _, _, new_events_append _ _ _ rfl⟩

theorem read_av_packet_answers_respected {F : Type} (eng : Engine F) (w : World F)
    (context_handle : Int) (start end_ : F) (type wanted_stream_nb seek_flag : Int)
    (js_caller : Sink F) :
    answers_respected
      (new_events w
        (read_av_packet eng w context_handle start end_ type wanted_stream_nb seek_flag
          js_caller)) = true := by
  cases hs : loop_start eng w context_handle start type wanted_stream_nb seek_flag with
  | none =>
    rcases read_av_packet_of_no_loop_start eng w context_handle start end_ type
      wanted_stream_nb seek_flag js_caller hs with h | ⟨a, b, c, d, h⟩
    · rw [h]; rfl
    · rw [h]; rfl
  | some entry =>
    obtain ⟨stream_index, fmt_ctx, before⟩ := entry
    obtain ⟨h, hb⟩ := read_av_packet_of_loop_start eng w context_handle start end_ type
      wanted_stream_nb seek_flag js_caller stream_index fmt_ctx before hs
    rw [h, stream_from_events]
    have hl := read_loop_answers_respected eng.dbl stream_index
      (stream_at fmt_ctx stream_index) end_ js_caller fmt_ctx.pending []
    rcases hb with rfl | ⟨a, b, c, d, rfl⟩
    · simpa using hl
    · simpa [answers_respected] using hl

theorem delivered_append {F : Type} (a b : List (Event F)) :
    delivered (a ++ b) = delivered a ++ delivered b := by
  induction a with
  | nil => rfl
  | cons e a ih => cases e <;> simp [delivered, ih]

theorem reads_append {F : Type} (a b : List (Event F)) :
    reads (a ++ b) = reads a + reads b := by
  induction a with
  | nil => simp [reads]
  | cons e a ih => cases e <;> simp [reads, ih]; omega

theorem loop_start_reached {F : Type} (eng : Engine F) (w : World F)
    (context_handle : Int) (start : F) (type wanted_stream_nb seek_flag : Int)
    (demux_ctx : DemuxerContext)
    (hreg : find w.context_map context_handle = some demux_ctx)
    (hsel : 0 ≤ eng.av_find_best_stream demux_ctx.fmt_ctx type wanted_stream_nb)
    (halloc : eng.av_packet_alloc = true)
    (hseek : eng.dbl.gt start (eng.dbl.ofInt 0) = true →
      0 ≤ (eng.av_seek_frame demux_ctx.fmt_ctx
            (eng.av_find_best_stream demux_ctx.fmt_ctx type wanted_stream_nb)
            (seek_time_stamp eng demux_ctx.fmt_ctx
              (eng.av_find_best_stream demux_ctx.fmt_ctx type wanted_stream_nb) start)
            seek_flag).1) :
    ∃ fmt_ctx before,
      loop_start eng w context_handle start type wanted_stream_nb seek_flag
        = some (eng.av_find_best_stream demux_ctx.fmt_ctx type wanted_stream_nb, fmt_ctx,
            before) := by
  have hs : ¬ eng.av_find_best_stream demux_ctx.fmt_ctx type wanted_stream_nb < 0 := by omega
  have ha : ¬ eng.av_packet_alloc = false := by simp [halloc]
  by_cases hstart : eng.dbl.gt start (eng.dbl.ofInt 0) = true
  · have hk := hseek hstart
    simp only [seek_time_stamp] at hk
    have hk2 := not_lt.mpr hk
    simp only [loop_start, hreg, if_neg hs, if_neg ha, if_pos hstart, if_neg hk2]
    exact ⟨_, _, rfl⟩
  · simp only [loop_start, hreg, if_neg hs, if_neg ha, if_neg hstart]
    exact ⟨_, _, rfl⟩

/-- C1, as the code has it: on a registered handle, when a stream is selected, the
packet is allocated and the seek, if `start > 0` asks for one, succeeds, `read_av_packet`
returns 1 for every list of answers of the engine and every sink, and the events of the
call end with the sentinel, which occurs nowhere before. -/
theorem read_av_packet_ends_with_sentinel {F : Type} (eng : Engine F) (w : World F)
    (context_handle : Int) (start end_ : F) (type wanted_stream_nb seek_flag : Int)
    (js_caller : Sink F) (demux_ctx : DemuxerContext)
    (hreg : find w.context_map context_handle = some demux_ctx)
    (hsel : 0 ≤ eng.av_find_best_stream demux_ctx.fmt_ctx type wanted_stream_nb)
    (halloc : eng.av_packet_alloc = true)
    (hseek : eng.dbl.gt start (eng.dbl.ofInt 0) = true →
      0 ≤ (eng.av_seek_frame demux_ctx.fmt_ctx
            (eng.av_find_best_stream demux_ctx.fmt_ctx type wanted_stream_nb)
            (seek_time_stamp eng demux_ctx.fmt_ctx
              (eng.av_find_best_stream demux_ctx.fmt_ctx type wanted_stream_nb) start)
            seek_flag).1) :
    (read_av_packet eng w context_handle start end_ type wanted_stream_nb seek_flag
      js_caller).1 = .ok 1 ∧
    ∃ events : List (Event F),
      (read_av_packet eng w context_handle start end_ type wanted_stream_nb seek_flag
        js_caller).2.trace = w.trace ++ events ++ [Event.sentinel] ∧
      ∀ e ∈ events, e.isSentinel = false := by
  obtain ⟨fmt_ctx, before, hls⟩ := loop_start_reached eng w context_handle start type
    wanted_stream_nb seek_flag demux_ctx hreg hsel halloc hseek
  obtain ⟨heq, hb⟩ := read_av_packet_of_loop_start eng w context_handle start end_ type
    wanted_stream_nb seek_flag js_caller _ fmt_ctx before hls
  rw [heq]
  refine ⟨rfl, before ++ (read_loop eng.dbl
    (eng.av_find_best_stream demux_ctx.fmt_ctx type wanted_stream_nb)
    (stream_at fmt_ctx (eng.av_find_best_stream demux_ctx.fmt_ctx type wanted_stream_nb))
    end_ js_caller fmt_ctx.pending []).1, ?_, ?_⟩
  · simp only [stream_from, List.append_assoc]
  · intro e he
    rw [List.mem_append] at he
    rcases he with he | he
    · rcases hb with rfl | ⟨a, b, c, d, rfl⟩
      · simp at he
      · simp only [List.mem_singleton] at he
        subst he
        rfl
    · exact read_loop_no_sentinel _ _ _ _ _ _ _ e he

/-- The streamer on four packets with a sink that goes on: it returns 1. -/
theorem read_av_packet_ends_with_sentinel_witness :
    (read_av_packet (sample_engine true) (sample_world sample_pending) 7 0 0 0 0 0
      keep_going).1 = .ok 1 :=
  (read_av_packet_ends_with_sentinel (sample_engine true) (sample_world sample_pending) 7
    0 0 0 0 0 keep_going { fmt_ctx := sample_fmt_ctx sample_pending } rfl (by decide) rfl
    (fun _ => by decide)).1

/-- C1 fails as stated: on a registered handle with a stream selected and no seek asked
for, `read_av_packet` raises `Cannot allocate packet` when `av_packet_alloc` returns the
null pointer, and the sink receives nothing, no sentinel either. -/
theorem read_av_packet_alloc_counterexample :
    find (sample_world sample_pending).context_map 7
      = some { fmt_ctx := sample_fmt_ctx sample_pending } ∧
    0 ≤ (sample_engine false).av_find_best_stream (sample_fmt_ctx sample_pending) 0 0 ∧
    (sample_engine false).dbl.gt (0 : ℚ) ((sample_engine false).dbl.ofInt 0) = false ∧
    (read_av_packet (sample_engine false) (sample_world sample_pending) 7 0 0 0 0 0
      keep_going).1 = .error "Cannot allocate packet" ∧
    (read_av_packet (sample_engine false) (sample_world sample_pending) 7 0 0 0 0 0
      keep_going).2.trace = [] := by
  refine ⟨rfl, by decide, by decide, rfl, rfl⟩

theorem new_events_of_loop_start {F : Type} (eng : Engine F) (w : World F)
    (context_handle : Int) (start end_ : F) (type wanted_stream_nb seek_flag : Int)
    (js_caller : Sink F) (stream_index : Int) (fmt_ctx : AVFormatContext)
    (before : List (Event F))
    (h : loop_start eng w context_handle start type wanted_stream_nb seek_flag
      = some (stream_index, fmt_ctx, before)) :
    new_events w
        (read_av_packet eng w context_handle start end_ type wanted_stream_nb seek_flag
          js_caller)
      = before ++
        ((read_loop eng.dbl stream_index (stream_at fmt_ctx stream_index) end_ js_caller
          fmt_ctx.pending []).1 ++ [Event.sentinel]) ∧
    delivered before = [] ∧ reads before = 0 ∧
    ∀ pkt answer, Event.send pkt answer ∉ before := by
  obtain ⟨heq, hb⟩ := read_av_packet_of_loop_start eng w context_handle start end_ type
    wanted_stream_nb seek_flag js_caller stream_index fmt_ctx before h
  rw [heq, stream_from_events]
  rcases hb with rfl | ⟨a, b, c, d, rfl⟩
  · exact ⟨rfl, rfl, rfl, by simp⟩
  · exact ⟨rfl, rfl, rfl, by simp⟩

/-- C2: when `end > 0`, no packet that `read_av_packet` delivers to the sink has a
timestamp greater than `end`; and when the engine is going to yield, after the answers
`pre`, a packet of the selected stream whose normalized timestamp is greater than `end`,
the call makes at most `pre.length + 1` reads and every packet delivered comes from
`pre`: that packet ends the loop and is not delivered. -/
theorem read_av_packet_never_past_end {F : Type} (eng : Engine F) (w : World F)
    (context_handle : Int) (start end_ : F) (type wanted_stream_nb seek_flag : Int)
    (js_caller : Sink F) (hend : eng.dbl.gt end_ (eng.dbl.ofInt 0) = true) :
    (∀ (pkt : WebAVPacket F) (answer : Int),
      Event.send pkt answer ∈
          new_events w
            (read_av_packet eng w context_handle start end_ type wanted_stream_nb seek_flag
              js_caller) →
        eng.dbl.gt pkt.timestamp end_ = false) ∧
    (∀ (stream_index : Int) (fmt_ctx : AVFormatContext) (before : List (Event F))
        (pre : List ReadResult) (q : AVPacket) (rest : List ReadResult),
      loop_start eng w context_handle start type wanted_stream_nb seek_flag
          = some (stream_index, fmt_ctx, before) →
      fmt_ctx.pending = pre ++ ReadResult.frame q :: rest →
      q.stream_index = stream_index →
      eng.dbl.gt (gen_web_packet eng.dbl q (stream_at fmt_ctx stream_index)).timestamp end_
          = true →
        reads (new_events w
            (read_av_packet eng w context_handle start end_ type wanted_stream_nb seek_flag
              js_caller)) ≤ pre.length + 1 ∧
        delivered (new_events w
            (read_av_packet eng w context_handle start end_ type wanted_stream_nb seek_flag
              js_caller)) <+:
          ((engine_frames pre).filter (fun p => decide (p.stream_index = stream_index))).map
            (fun p => gen_web_packet eng.dbl p (stream_at fmt_ctx stream_index))) := by
  constructor
  · intro pkt answer hmem
    cases hs : loop_start eng w context_handle start type wanted_stream_nb seek_flag with
    | none =>
      rcases read_av_packet_of_no_loop_start eng w context_handle start end_ type
        wanted_stream_nb seek_flag js_caller hs with h | ⟨a, b, c, d, h⟩
      · rw [h] at hmem; simp at hmem
      · rw [h] at hmem; simp at hmem
    | some entry =>
      obtain ⟨stream_index, fmt_ctx, before⟩ := entry
      obtain ⟨hev, _, _, hnb⟩ := new_events_of_loop_start eng w context_handle start end_
        type wanted_stream_nb seek_flag js_caller stream_index fmt_ctx before hs
      rw [hev, List.mem_append, List.mem_append] at hmem
      rcases hmem with hmem | hmem | hmem
      · exact absurd hmem (hnb pkt answer)
      · exact read_loop_within_end eng.dbl stream_index _ end_ js_caller hend _ _ pkt
          answer hmem
      · simp at hmem
  · intro stream_index fmt_ctx before pre q rest hs hpending hq hpast
    obtain ⟨hev, hd, hr, _⟩ := new_events_of_loop_start eng w context_handle start end_
      type wanted_stream_nb seek_flag js_caller stream_index fmt_ctx before hs
    have hl := read_loop_stops_past_end eng.dbl stream_index (stream_at fmt_ctx stream_index)
      end_ js_caller hend q rest hq hpast pre []
    rw [hev, hpending]
    simp only [reads_append, delivered_append, hd, hr, reads, delivered, List.nil_append,
      List.append_nil, Nat.zero_add, Nat.add_zero]
    exact hl

/-- The streamer with `end` at 0.1 s on four packets, the last of them, at 0.12 s, of
the selected stream: at most four reads are made. -/
theorem read_av_packet_never_past_end_witness :
    reads (new_events (sample_world sample_pending)
      (read_av_packet (sample_engine true) (sample_world sample_pending) 7 0 (1 / 10)
        0 0 0 keep_going)) ≤ 3 + 1 :=
  ((read_av_packet_never_past_end (sample_engine true) (sample_world sample_pending) 7 0
    (1 / 10) 0 0 0 keep_going (by simp [sample_engine, exactOps])).2 0
    (sample_fmt_ctx sample_pending) []
    [.frame (sample_packet 0 40 (some [1, 2])), .frame (sample_packet 1 40 (some [3])),
      .frame (sample_packet 0 80 (some [4, 5]))]
    (sample_packet 0 120 (some [6])) [] rfl rfl rfl
    (by
      simp only [gen_web_packet, sample_packet, sample_stream, stream_at, sample_fmt_ctx,
        av_q2d, sample_engine, exactOps, AV_NOPTS_VALUE]
      norm_num)).1

/-- C3: in the events of `read_av_packet`, a delivery that the sink answers with 0 is
followed by the sentinel and nothing else, so by no further read and no further
delivery; a delivery answered with another value is followed by the next call of
`av_read_frame`; and when the first invocation of the sink is answered with 0, the
sink sees that one data packet and then the sentinel, nothing more. -/
theorem read_av_packet_stop_signal {F : Type} (eng : Engine F) (w : World F)
    (context_handle : Int) (start end_ : F) (type wanted_stream_nb seek_flag : Int)
    (js_caller : Sink F) :
    (∀ (pre : List (Event F)) (pkt : WebAVPacket F) (post : List (Event F)),
      new_events w
          (read_av_packet eng w context_handle start end_ type wanted_stream_nb seek_flag
            js_caller) = pre ++ Event.send pkt 0 :: post →
        post = [Event.sentinel]) ∧
    (∀ (pre : List (Event F)) (pkt : WebAVPacket F) (answer : Int) (post : List (Event F)),
      answer ≠ 0 →
      new_events w
          (read_av_packet eng w context_handle start end_ type wanted_stream_nb seek_flag
            js_caller) = pre ++ Event.send pkt answer :: post →
        ∃ ret tl, post = Event.read ret :: tl) ∧
    (∀ (pkt : WebAVPacket F) (later : List (Event F)),
      sink_calls (new_events w
          (read_av_packet eng w context_handle start end_ type wanted_stream_nb seek_flag
            js_caller)) = Event.send pkt 0 :: later →
        later = [Event.sentinel]) := by
  have hr := read_av_packet_answers_respected eng w context_handle start end_ type
    wanted_stream_nb seek_flag js_caller
  refine ⟨?_, ?_, ?_⟩
  · intro pre pkt post h
    rw [h] at hr
    exact answers_respected_stop pre pkt post hr
  · intro pre pkt answer post ha h
    rw [h] at hr
    exact answers_respected_continue pre pkt answer post ha hr
  · intro pkt later h
    exact answers_respected_first_stop _ hr pkt 0 later h rfl

theorem read_loop_exact {F : Type} (ops : DoubleOps F) (stream_index : Int)
    (stream : AVStream) (end_ : F) (js_caller : Sink F) (pending : List ReadResult) :
    ∀ (sent : List (WebAVPacket F)),
      delivered (read_loop ops stream_index stream end_ js_caller pending sent).1
        = due_packets ops stream_index stream
            (pending.take
              (reads (read_loop ops stream_index stream end_ js_caller pending sent).1)) ∨
      ∃ (c : List ReadResult) (q : AVPacket),
        pending.take (reads (read_loop ops stream_index stream end_ js_caller pending sent).1)
          = c ++ [ReadResult.frame q] ∧
        q.stream_index = stream_index ∧
        (ops.gt end_ (ops.ofInt 0) && ops.gt (gen_web_packet ops q stream).timestamp end_)
          = true ∧
        delivered (read_loop ops stream_index stream end_ js_caller pending sent).1
          = due_packets ops stream_index stream c := by
  induction pending with
  | nil => intro sent; left; simp [read_loop, delivered, reads, due_packets, engine_frames]
  | cons r rest ih =>
    intro sent
    cases r with
    | failure n =>
      left; simp [read_loop, delivered, reads, due_packets, engine_frames]
    | frame packet =>
      simp only [read_loop]
      split_ifs with hsel hpast hstop
      · right
        exact ⟨[], packet, by simp [reads], hsel, hpast,
          by simp [delivered, due_packets, engine_frames]⟩
      · left
        simp [delivered, reads, due_packets, engine_frames, hsel, List.filter_cons]
      · rcases ih (sent ++ [gen_web_packet ops packet stream]) with h | ⟨c, q, h1, h2, h3, h4⟩
        · left
          simp only [delivered, reads, List.take_succ_cons, h]
          simp [due_packets, engine_frames, hsel, List.filter_cons]
        · right
          refine ⟨ReadResult.frame packet :: c, q, ?_, h2, h3, ?_⟩
          · simp only [reads, List.take_succ_cons, h1, List.cons_append]
          · simp only [delivered, h4]
            simp [due_packets, engine_frames, hsel, List.filter_cons]
      · rcases ih sent with h | ⟨c, q, h1, h2, h3, h4⟩
        · left
          simp only [delivered, reads, List.take_succ_cons, h]
          simp [due_packets, engine_frames, hsel, List.filter_cons]
        · right
          refine ⟨ReadResult.frame packet :: c, q, ?_, h2, h3, ?_⟩
          · simp only [reads, List.take_succ_cons, h1, List.cons_append]
          · simp only [delivered, h4]
            simp [due_packets, engine_frames, hsel, List.filter_cons]

theorem read_loop_all {F : Type} (ops : DoubleOps F) (stream_index : Int)
    (stream : AVStream) (end_ : F) (js_caller : Sink F)
    (hgo : ∀ (sent : List (WebAVPacket F)) (pkt : WebAVPacket F), js_caller sent pkt ≠ 0)
    (hend : ops.gt end_ (ops.ofInt 0) = false) (pending : List ReadResult) :
    ∀ (sent : List (WebAVPacket F)),
      delivered (read_loop ops stream_index stream end_ js_caller pending sent).1
        = due_packets ops stream_index stream pending := by
  induction pending with
  | nil => intro sent; simp [read_loop, delivered, due_packets, engine_frames]
  | cons r rest ih =>
    intro sent
    cases r with
    | failure n => simp [read_loop, delivered, due_packets, engine_frames]
    | frame packet =>
      simp only [read_loop]
      split_ifs with hsel hpast hstop
      · simp [hend] at hpast
      · exact absurd hstop (hgo _ _)
      · simp only [delivered, ih]
        simp [due_packets, engine_frames, hsel, List.filter_cons]
      · simp only [delivered, ih]
        simp [due_packets, engine_frames, hsel, List.filter_cons]

theorem read_loop_remaining {F : Type} (ops : DoubleOps F) (stream_index : Int)
    (stream : AVStream) (end_ : F) (js_caller : Sink F) (pending : List ReadResult) :
    ∀ (sent : List (WebAVPacket F)),
      (read_loop ops stream_index stream end_ js_caller pending sent).2
        = pending.drop
            (reads (read_loop ops stream_index stream end_ js_caller pending sent).1) := by
  induction pending with
  | nil => intro sent; simp [read_loop]
  | cons r rest ih =>
    intro sent
    cases r with
    | failure n => simp [read_loop, reads]
    | frame packet =>
      simp only [read_loop]
      split_ifs with hsel hpast hstop
      · simp [reads]
      · simp [reads]
      · simpa [reads] using ih _
      · simpa [reads] using ih sent

theorem loop_start_registered {F : Type} (eng : Engine F) (w : World F)
    (context_handle : Int) (start : F) (type wanted_stream_nb seek_flag : Int)
    (entry : Int × AVFormatContext × List (Event F))
    (h : loop_start eng w context_handle start type wanted_stream_nb seek_flag = some entry) :
    ∃ demux_ctx, find w.context_map context_handle = some demux_ctx := by
  unfold loop_start at h
  cases hf : find w.context_map context_handle with
  | none => simp [hf] at h
  | some ctx => exact ⟨ctx, rfl⟩

/-- C6: the data packets that `read_av_packet` delivers are, in order, a prefix of the
packets that the engine yields from the position the reads start at, filtered to the
selected stream and normalized by `gen_web_packet`; each has the index of the selected
stream; a call that raises before the read loop delivers nothing. None is skipped: with
`k` the number of calls of `av_read_frame`, the delivered packets are exactly the
normalized packets of the selected stream among the first `k` answers of the engine,
or, when the call stopped at a packet of the selected stream past `end`, among the
answers before that packet; the session is left at the answers after the first `k`;
and with a sink that never answers 0 and no positive `end`, every packet of the
selected stream that the engine yields is delivered. -/
theorem read_av_packet_delivers_in_order {F : Type} (eng : Engine F) (w : World F)
    (context_handle : Int) (start end_ : F) (type wanted_stream_nb seek_flag : Int)
    (js_caller : Sink F) :
    (loop_start eng w context_handle start type wanted_stream_nb seek_flag = none →
      delivered (new_events w
        (read_av_packet eng w context_handle start end_ type wanted_stream_nb seek_flag
          js_caller)) = []) ∧
    (∀ (stream_index : Int) (fmt_ctx : AVFormatContext) (before : List (Event F)),
      loop_start eng w context_handle start type wanted_stream_nb seek_flag
          = some (stream_index, fmt_ctx, before) →
        delivered (new_events w
            (read_av_packet eng w context_handle start end_ type wanted_stream_nb seek_flag
              js_caller)) <+:
          ((engine_frames fmt_ctx.pending).filter
              (fun p => decide (p.stream_index = stream_index))).map
            (fun p => gen_web_packet eng.dbl p (stream_at fmt_ctx stream_index)) ∧
        ∀ pkt ∈ delivered (new_events w
            (read_av_packet eng w context_handle start end_ type wanted_stream_nb seek_flag
              js_caller)), pkt.stream_index = stream_index) ∧
    (∀ (stream_index : Int) (fmt_ctx : AVFormatContext) (before : List (Event F)),
      loop_start eng w context_handle start type wanted_stream_nb seek_flag
          = some (stream_index, fmt_ctx, before) →
        (delivered (new_events w
            (read_av_packet eng w context_handle start end_ type wanted_stream_nb seek_flag
              js_caller))
          = due_packets eng.dbl stream_index (stream_at fmt_ctx stream_index)
              (fmt_ctx.pending.take (reads (new_events w
                (read_av_packet eng w context_handle start end_ type wanted_stream_nb
                  seek_flag js_caller)))) ∨
         ∃ (c : List ReadResult) (q : AVPacket),
          fmt_ctx.pending.take (reads (new_events w
              (read_av_packet eng w context_handle start end_ type wanted_stream_nb
                seek_flag js_caller))) = c ++ [ReadResult.frame q] ∧
          q.stream_index = stream_index ∧
          (eng.dbl.gt end_ (eng.dbl.ofInt 0) &&
            eng.dbl.gt (gen_web_packet eng.dbl q (stream_at fmt_ctx stream_index)).timestamp
              end_) = true ∧
          delivered (new_events w
              (read_av_packet eng w context_handle start end_ type wanted_stream_nb
                seek_flag js_caller))
            = due_packets eng.dbl stream_index (stream_at fmt_ctx stream_index) c) ∧
        find (read_av_packet eng w context_handle start end_ type wanted_stream_nb
            seek_flag js_caller).2.context_map context_handle
          = some { fmt_ctx :=
              { fmt_ctx with
                pending := fmt_ctx.pending.drop (reads (new_events w
                  (read_av_packet eng w context_handle start end_ type wanted_stream_nb
                    seek_flag js_caller))) } } ∧
        ((∀ (sent : List (WebAVPacket F)) (pkt : WebAVPacket F), js_caller sent pkt ≠ 0) →
          eng.dbl.gt end_ (eng.dbl.ofInt 0) = false →
          delivered (new_events w
              (read_av_packet eng w context_handle start end_ type wanted_stream_nb
                seek_flag js_caller))
            = due_packets eng.dbl stream_index (stream_at fmt_ctx stream_index)
                fmt_ctx.pending)) := by
  refine ⟨?_, ?_, ?_⟩
  · intro hs
    rcases read_av_packet_of_no_loop_start eng w context_handle start end_ type
      wanted_stream_nb seek_flag js_caller hs with h | ⟨a, b, c, d, h⟩
    · rw [h]; rfl
    · rw [h]; rfl
  · intro stream_index fmt_ctx before hs
    obtain ⟨hev, hd, _, _⟩ := new_events_of_loop_start eng w context_handle start end_
      type wanted_stream_nb seek_flag js_caller stream_index fmt_ctx before hs
    have hl := read_loop_delivered eng.dbl stream_index (stream_at fmt_ctx stream_index)
      end_ js_caller fmt_ctx.pending []
    have hpre : delivered (new_events w
        (read_av_packet eng w context_handle start end_ type wanted_stream_nb seek_flag
          js_caller)) <+:
        ((engine_frames fmt_ctx.pending).filter
            (fun p => decide (p.stream_index = stream_index))).map
          (fun p => gen_web_packet eng.dbl p (stream_at fmt_ctx stream_index)) := by
      rw [hev]
      simpa only [delivered_append, hd, delivered, List.nil_append, List.append_nil] using hl
    refine ⟨hpre, ?_⟩
    intro pkt hp
    have hm := hpre.subset hp
    simp only [List.mem_map, List.mem_filter, decide_eq_true_eq] at hm
    obtain ⟨p, ⟨_, hsel⟩, rfl⟩ := hm
    exact hsel
  · intro stream_index fmt_ctx before hs
    obtain ⟨hev, hd, hr, _⟩ := new_events_of_loop_start eng w context_handle start end_
      type wanted_stream_nb seek_flag js_caller stream_index fmt_ctx before hs
    have hdel : delivered (new_events w
        (read_av_packet eng w context_handle start end_ type wanted_stream_nb seek_flag
          js_caller))
        = delivered (read_loop eng.dbl stream_index (stream_at fmt_ctx stream_index) end_
            js_caller fmt_ctx.pending []).1 := by
      rw [hev]
      simp only [delivered_append, hd, delivered, List.nil_append, List.append_nil]
    have hreads : reads (new_events w
        (read_av_packet eng w context_handle start end_ type wanted_stream_nb seek_flag
          js_caller))
        = reads (read_loop eng.dbl stream_index (stream_at fmt_ctx stream_index) end_
            js_caller fmt_ctx.pending []).1 := by
      rw [hev]
      simp only [reads_append, hr, reads, Nat.zero_add, Nat.add_zero]
    rw [hdel, hreads]
    refine ⟨read_loop_exact eng.dbl stream_index (stream_at fmt_ctx stream_index) end_
      js_caller fmt_ctx.pending [], ?_, ?_⟩
    · obtain ⟨demux_ctx, hreg⟩ := loop_start_registered eng w context_handle start type
        wanted_stream_nb seek_flag _ hs
      obtain ⟨heq, _⟩ := read_av_packet_of_loop_start eng w context_handle start end_ type
        wanted_stream_nb seek_flag js_caller stream_index fmt_ctx before hs
      rw [heq]
      simp only [stream_from]
      rw [find_store _ _ demux_ctx _ hreg, read_loop_remaining]
    · intro hgo hend
      exact read_loop_all eng.dbl stream_index (stream_at fmt_ctx stream_index) end_
        js_caller hgo hend fmt_ctx.pending []

/-- The streamer on four packets with a sink that goes on and no `end`: the three
packets of stream 0 are delivered, in the order of the engine. -/
theorem read_av_packet_delivers_in_order_witness :
    delivered (new_events (sample_world sample_pending)
      (read_av_packet (sample_engine true) (sample_world sample_pending) 7 0 0 0 0 0
        keep_going))
      = [gen_web_packet exactOps (sample_packet 0 40 (some [1, 2])) (sample_stream 0),
         gen_web_packet exactOps (sample_packet 0 80 (some [4, 5])) (sample_stream 0),
         gen_web_packet exactOps (sample_packet 0 120 (some [6])) (sample_stream 0)] :=
  ((read_av_packet_delivers_in_order (sample_engine true) (sample_world sample_pending) 7
    0 0 0 0 0 keep_going).2.2 0 (sample_fmt_ctx sample_pending) [] rfl).2.2
    (fun _ _ => (by decide : (1 : Int) ≠ 0)) (by simp [sample_engine, exactOps])

/-! ## The single-packet fetcher -/

theorem fetch_loop_packet {F : Type} (stream_index : Int) (pending : List ReadResult) :
    (fetch_loop (F := F) stream_index pending).2.1
      = (first_match stream_index pending).getD blank_packet := by
  induction pending with
  | nil => rfl
  | cons r rest ih =>
    cases r with
    | failure n => rfl
    | frame packet =>
      simp only [fetch_loop, first_match]
      split_ifs
      · rfl
      · exact ih

theorem first_match_stream_index (stream_index : Int) (pending : List ReadResult)
    (q : AVPacket) (h : first_match stream_index pending = some q) :
    q.stream_index = stream_index := by
  induction pending with
  | nil => simp [first_match] at h
  | cons r rest ih =>
    cases r with
    | failure n => simp [first_match] at h
    | frame packet =>
      simp only [first_match] at h
      split_ifs at h with hsel
      · cases h; exact hsel
      · exact ih h

/-- C5, as the code has it: on a registered handle, when a stream is selected, the
packet is allocated and the seek succeeds, `get_av_packet` discards the packets of other
streams, empty or not, and looks at the first packet of the selected stream that the
engine yields after the seek: when that packet has data the result is its
normalization, so the returned `stream_index` is that of the selected stream; when
that packet is empty (its data is the null pointer), or when the engine is exhausted or
fails before a packet of the selected stream, the call raises
`Failed to get av packet at timestamp`. -/
theorem get_av_packet_first_match {F : Type} (eng : Engine F) (w : World F)
    (context_handle : Int) (type wanted_stream_nb : Int) (timestamp : F) (seek_flag : Int)
    (demux_ctx : DemuxerContext) (stream_index : Int) (sought : Int × AVFormatContext)
    (hreg : find w.context_map context_handle = some demux_ctx)
    (hidx : eng.av_find_best_stream demux_ctx.fmt_ctx type wanted_stream_nb = stream_index)
    (hsel : 0 ≤ stream_index)
    (halloc : eng.av_packet_alloc = true)
    (hsought : eng.av_seek_frame demux_ctx.fmt_ctx stream_index
      (seek_time_stamp eng demux_ctx.fmt_ctx stream_index timestamp) seek_flag = sought)
    (hseek : 0 ≤ sought.1) :
    (∀ q : AVPacket, first_match stream_index sought.2.pending = some q → q.data ≠ none →
      (get_av_packet eng w context_handle type wanted_stream_nb timestamp seek_flag).1
        = .ok (gen_web_packet eng.dbl q (stream_at sought.2 stream_index))) ∧
    (∀ q : AVPacket, first_match stream_index sought.2.pending = some q → q.data = none →
      (get_av_packet eng w context_handle type wanted_stream_nb timestamp seek_flag).1
        = .error "Failed to get av packet at timestamp") ∧
    (first_match stream_index sought.2.pending = none →
      (get_av_packet eng w context_handle type wanted_stream_nb timestamp seek_flag).1
        = .error "Failed to get av packet at timestamp") ∧
    (∀ pkt : WebAVPacket F,
      (get_av_packet eng w context_handle type wanted_stream_nb timestamp seek_flag).1
        = .ok pkt → pkt.stream_index = stream_index) := by
  have hs : ¬ stream_index < 0 := by omega
  have ha : ¬ eng.av_packet_alloc = false := by simp [halloc]
  have hk : ¬ sought.1 < 0 := by omega
  simp only [seek_time_stamp] at hsought
  have hout : (get_av_packet eng w context_handle type wanted_stream_nb timestamp seek_flag).1
      = if ((first_match stream_index sought.2.pending).getD blank_packet).data.isNone = true
        then .error "Failed to get av packet at timestamp"
        else .ok (gen_web_packet eng.dbl
          ((first_match stream_index sought.2.pending).getD blank_packet)
          (stream_at sought.2 stream_index)) := by
    simp only [get_av_packet, hreg, hidx, if_neg hs, if_neg ha, hsought, if_neg hk,
      fetch_loop_packet]
    split_ifs <;> rfl
  refine ⟨?_, ?_, ?_, ?_⟩
  · intro q hq hdata
    rw [hout, hq]
    cases hd : q.data with
    | none => exact absurd hd hdata
    | some bytes => simp [hd]
  · intro q hq hdata
    rw [hout, hq]
    simp [hdata]
  · intro hq
    rw [hout, hq]
    simp [blank_packet]
  · intro pkt hpkt
    rw [hout] at hpkt
    split_ifs at hpkt with hnone
    cases hq : first_match stream_index sought.2.pending with
    | none => simp [hq, blank_packet] at hnone
    | some q =>
      rw [hq] at hpkt
      simp only [Option.getD_some, Except.ok.injEq] at hpkt
      rw [← hpkt]
      exact first_match_stream_index stream_index _ q hq

/-- The fetcher on an engine that yields a packet of stream 1 and then a packet of
stream 0 with two bytes, for the selected stream 0. -/
theorem get_av_packet_first_match_witness :
    (get_av_packet (sample_engine true)
      (sample_world [.frame (sample_packet 1 0 (some [9])),
        .frame (sample_packet 0 40 (some [3, 4]))]) 7 0 0 0 0).1
      = .ok (gen_web_packet exactOps (sample_packet 0 40 (some [3, 4])) (sample_stream 0)) :=
  (get_av_packet_first_match (sample_engine true)
    (sample_world [.frame (sample_packet 1 0 (some [9])),
      .frame (sample_packet 0 40 (some [3, 4]))]) 7 0 0 0 0
    { fmt_ctx := sample_fmt_ctx [.frame (sample_packet 1 0 (some [9])),
        .frame (sample_packet 0 40 (some [3, 4]))] } 0
    (0, sample_fmt_ctx [.frame (sample_packet 1 0 (some [9])),
        .frame (sample_packet 0 40 (some [3, 4]))])
    rfl rfl (by decide) rfl rfl (by decide)).1
    (sample_packet 0 40 (some [3, 4])) rfl (by decide)

/-- C5 fails as stated. An engine that yields an empty packet of stream 1 and then a
packet of the selected stream 0: an empty packet comes before the match, and the call
returns the match instead of raising. An engine that yields an empty packet of the
selected stream 0 and then a packet of stream 0 with data: the call raises instead of
returning the normalization of the first packet of the selected stream. -/
theorem get_av_packet_empty_packet_counterexample :
    (get_av_packet (sample_engine true)
      (sample_world [.frame (sample_packet 1 0 none),
        .frame (sample_packet 0 40 (some [3, 4]))]) 7 0 0 0 0).1
      = .ok (gen_web_packet exactOps (sample_packet 0 40 (some [3, 4])) (sample_stream 0)) ∧
    (get_av_packet (sample_engine true)
      (sample_world [.frame (sample_packet 0 0 none),
        .frame (sample_packet 0 40 (some [3, 4]))]) 7 0 0 0 0).1
      = .error "Failed to get av packet at timestamp" ∧
    first_match 0 [.frame (sample_packet 0 0 none), .frame (sample_packet 0 40 (some [3, 4]))]
      = some (sample_packet 0 0 none) :=
  ⟨rfl, rfl, rfl⟩

/-! ## The streamer on the example data -/

/-- With a sink that answers 0 to the first packet, the engine is read once and the
sink sees that packet and the sentinel. -/
theorem stop_at_first_example :
    new_events (sample_world sample_pending)
      (read_av_packet (sample_engine true) (sample_world sample_pending) 7 0 0 0 0 0
        stop_at_first)
      = [Event.read 0,
         Event.send (gen_web_packet exactOps (sample_packet 0 40 (some [1, 2]))
           (sample_stream 0)) 0,
         Event.sentinel] := by
  rfl

/-- With a sink that goes on and no `end`, the three packets of stream 0 are delivered
in the order of the engine, the packet of stream 1 is not, and the fifth read finds the
engine exhausted. -/
theorem keep_going_example :
    new_events (sample_world sample_pending)
      (read_av_packet (sample_engine true) (sample_world sample_pending) 7 0 0 0 0 0
        keep_going)
      = [Event.read 0,
         Event.send (gen_web_packet exactOps (sample_packet 0 40 (some [1, 2]))
           (sample_stream 0)) 1,
         Event.read 0,
         Event.read 0,
         Event.send (gen_web_packet exactOps (sample_packet 0 80 (some [4, 5]))
           (sample_stream 0)) 1,
         Event.read 0,
         Event.send (gen_web_packet exactOps (sample_packet 0 120 (some [6]))
           (sample_stream 0)) 1,
         Event.read AVERROR_EOF,
         Event.sentinel] := by
  rfl

end WebDemuxer
